import Mathlib

/-!
# so23b, trabalho t1: the kernel of `so.c`

A shallow embedding of `src/Trabalhos/t1/so.c` and theorems about it.

Conventions of the embedding

* A C `int` is an `Int`; `%` is C's truncating remainder (`Int.tmod`).  The additions of the
  scheduler, whose operand `pid` may be any `int`, are wrapped to 32 bits (`soma_int`).  The
  other sums step through memory addresses, one past an address that was just accessed, or
  count table slots; they stay far from the limits of `int` and are exact.  The counter
  `num_processos` starts at 0 and is only ever incremented, so it is a `Nat`.
* A `char` holds a value of 8 bits; whether it is signed is a parameter of the platform
  (`externos.char_com_sinal`), and `char_de_int` is the conversion an assignment to a `char`
  performs.
* `tabela_de_processos` is a function on slot indices; only the indices below
  `PROCESSOS_MAX` are slots of the C array.  Every access the C code makes through a
  computed index is bounds-checked here, and an access outside the array is reported as
  `exec.indefinido` (undefined behaviour in C), as is a division by zero or the use of a
  local variable that was never written.
* Loops that need not terminate take fuel; `exec.esgotado` says the fuel (or the script of
  device answers) ran out before the loop ended.
* `console_printf` only logs and is left out.
-/

namespace SO

/-! ## Constants of `so.c` -/

/-- Interval between clock interrupts, in executed instructions. -/
def INTERVALO_INTERRUPCAO : Int := 50

/-- Capacity of the process table. -/
def PROCESSOS_MAX : Nat := 100

/-- Number of terminals. -/
def TERMINAIS_MAX : Int := 4

/-! ## Machine integers and characters -/

/-- Largest value of a C `int` (32 bits). -/
def INT_MAX : Int := 2147483647

/-- Sum of two C `int`s as the compiled code computes it: kept to 32 bits, two's complement,
so that `INT_MAX + 1` is `INT_MIN`. -/
def soma_int (a b : Int) : Int := (a + b + 2147483648) % 4294967296 - 2147483648

/-- Conversion of an `int` in 0..255 to `char`, as the assignment `str[i] = caractere`
performs it: where `char` is signed the values 128..255 become -128..-1, where it is
unsigned every value is kept. -/
def char_de_int (com_sinal : Bool) (c : Int) : Int :=
  if com_sinal = true ∧ 128 ≤ c then c - 256 else c

/-! ## Data model -/

/-- States of a process. -/
inductive estado_t where
  | PRONTO
  | BLOQUEADO
  | PARADO
  deriving DecidableEq

/-- Process descriptor. -/
structure processo_t where
  pid : Int
  estado : estado_t
  pc : Int
  a : Int
  x : Int
  erro : Int
  deriving DecidableEq

/-- Outcome of running a piece of the kernel. -/
inductive exec (α : Type) where
  | ok : α → exec α
  | indefinido : exec α
  | esgotado : exec α

/-- A parsed program as the loader exposes it: `prog_end_carga`, `prog_tamanho` and
`prog_dado` (indexed by memory address). -/
structure programa_t where
  end_carga : Int
  tamanho : Int
  dado : Int → Int

/-- Declarations that `so.c` takes from headers that are not part of the sources
(`irq.h`, `so.h`, `err.h`, `cpu.h`, `instrucao.h`), the program loader `prog_cria`
(`programa.h`), which maps a file name (its characters) to a program or fails, and whether
the platform's `char` is signed. -/
structure externos where
  IRQ_END_PC : Int
  IRQ_END_A : Int
  IRQ_END_X : Int
  IRQ_END_erro : Int
  IRQ_END_modo : Int
  IRQ_RESET : Int
  IRQ_ERR_CPU : Int
  IRQ_SISTEMA : Int
  IRQ_RELOGIO : Int
  SO_LE : Int
  SO_ESCR : Int
  SO_CRIA_PROC : Int
  SO_MATA_PROC : Int
  ERR_OK : Int
  ERR_CPU_PARADA : Int
  usuario : Int
  CHAMAC : Int
  RETI : Int
  prog_cria : List Int → Option programa_t
  char_com_sinal : Bool

/-- Modelled from the spec: the memory simulator (`mem.h`), "read and write by address,
each fallible"; an access fails when the address is out of range or unmapped.  A memory is
a partial map from addresses to values, `none` marking an address that cannot be accessed. -/
def mem_t : Type := Int → Option Int

/-- Modelled from the spec: memory read; `none` is a failed read (the destination variable
is then left as it was). -/
def mem_le (mem : mem_t) (ender : Int) : Option Int := mem ender

/-- Modelled from the spec: memory write; the boolean says whether the write returned
`ERR_OK`; a failed write leaves the memory as it was. -/
def mem_escreve (mem : mem_t) (ender valor : Int) : Bool × mem_t :=
  if (mem ender).isSome then (true, Function.update mem ender (some valor)) else (false, mem)

/-- Modelled from the spec: the clock device (`relogio.h`), of which the kernel only writes
registers. -/
def relogio_t : Type := Int → Int

/-- Modelled from the spec: clock register write. -/
def rel_escr (relogio : relogio_t) (id valor : Int) : relogio_t := Function.update relogio id valor

/-- Modelled from the spec: the console/terminal simulator (`console.h`).  The kernel sees
it only through the answers to its successive `term_le` calls, so a console is the script
of those answers (`none`: the call failed and wrote nothing), together with the log of what
`term_escr` was given. -/
structure console_t where
  respostas : List (Option Int)
  escritos : List (Int × Int)

/-- Modelled from the spec: terminal device write. -/
def term_escr (console : console_t) (id valor : Int) : console_t :=
  { console with escritos := console.escritos ++ [(id, valor)] }

/-- The C pointer `processo_atual`: it points at `processo_especial` or at a slot of the
table. -/
inductive ref_processo where
  | especial : ref_processo
  | entrada : Fin PROCESSOS_MAX → ref_processo
  deriving DecidableEq

/-- The kernel state `struct so_t` (the CPU handle is only used to register the trap
callback and is left out). -/
structure so_t where
  mem : mem_t
  console : console_t
  relogio : relogio_t
  processo_atual : ref_processo
  tabela_de_processos : Nat → processo_t
  processo_especial : processo_t
  num_processos : Nat

/-- The record `*self->processo_atual`. -/
def atual (self : so_t) : processo_t :=
  match self.processo_atual with
  | ref_processo.especial => self.processo_especial
  | ref_processo.entrada i => self.tabela_de_processos i.val

/-- Assignment through the pointer: `*self->processo_atual = f (*self->processo_atual)`. -/
def altera_atual (self : so_t) (f : processo_t → processo_t) : so_t :=
  match self.processo_atual with
  | ref_processo.especial => { self with processo_especial := f self.processo_especial }
  | ref_processo.entrada i =>
    { self with
      tabela_de_processos :=
        Function.update self.tabela_de_processos i.val (f (self.tabela_de_processos i.val)) }

/-! ## Process creation -/

/-- `so_cria_processo`: the returned pointer is the slot index, `none` for `NULL`. -/
def so_cria_processo (k : externos) (self : so_t) (pid : Int) : Option Nat × so_t :=
  if self.num_processos < PROCESSOS_MAX then
    let slot := self.num_processos
    let processo : processo_t :=
      { pid := pid, estado := estado_t.PRONTO, pc := 0, a := 0, x := 0, erro := k.ERR_OK }
    (some slot,
      { self with
        num_processos := self.num_processos + 1
        tabela_de_processos := Function.update self.tabela_de_processos slot processo })
  else
    (none, self)

/-! ## Context save, scheduler, dispatch -/

/-- `so_salva_estado_da_cpu`. -/
def so_salva_estado_da_cpu (k : externos) (self : so_t) : so_t :=
  if self.processo_atual = ref_processo.especial then self
  else
    let s1 := altera_atual self (fun p =>
      match mem_le self.mem k.IRQ_END_PC with
      | some v => { p with pc := v }
      | none => p)
    let s2 := altera_atual s1 (fun p =>
      match mem_le s1.mem k.IRQ_END_A with
      | some v => { p with a := v }
      | none => p)
    let s3 := altera_atual s2 (fun p =>
      match mem_le s2.mem k.IRQ_END_X with
      | some v => { p with x := v }
      | none => p)
    altera_atual s3 (fun p =>
      match mem_le s3.mem k.IRQ_END_erro with
      | some v => { p with erro := v }
      | none => p)

/-- `so_trata_pendencias` (empty in the source). -/
def so_trata_pendencias (self : so_t) : so_t := self

/-- The `while` loop of `so_escalona`; one unit of fuel per evaluation of the loop
condition, which reads `tabela_de_processos[prox_indice]`. -/
def so_escalona_laco (tabela : Nat → processo_t) (num : Nat) : Nat → Int → exec Int
  | 0, _ => exec.esgotado
  | comb + 1, prox_indice =>
    if prox_indice < 0 ∨ (PROCESSOS_MAX : Int) ≤ prox_indice then exec.indefinido
    else if (tabela prox_indice.toNat).estado ≠ estado_t.PRONTO then
      so_escalona_laco tabela num comb (Int.tmod (soma_int prox_indice 1) num)
    else exec.ok prox_indice

/-- `so_escalona`. -/
def so_escalona (comb : Nat) (self : so_t) : exec so_t :=
  if self.num_processos = 0 then exec.indefinido
  else
    match so_escalona_laco self.tabela_de_processos self.num_processos comb
        (Int.tmod (soma_int (atual self).pid 1) self.num_processos) with
    | exec.ok prox_indice => exec.ok (altera_atual self (fun p => { p with pid := prox_indice }))
    | exec.indefinido => exec.indefinido
    | exec.esgotado => exec.esgotado

/-- `so_despacha`. -/
def so_despacha (k : externos) (self : so_t) : so_t :=
  let m1 := (mem_escreve self.mem k.IRQ_END_PC (atual self).pc).2
  let m2 := (mem_escreve m1 k.IRQ_END_A (atual self).a).2
  let m3 := (mem_escreve m2 k.IRQ_END_X (atual self).x).2
  let m4 := (mem_escreve m3 k.IRQ_END_erro (atual self).erro).2
  { self with mem := m4 }

/-! ## Program loader glue and string copy -/

/-- The `for` loop of `so_carrega_programa`, with the number of iterations still to run
(`end_fim - end`) as the recursion argument. -/
def so_carrega_programa_laco (prog : programa_t) : Nat → Int → mem_t → Bool × mem_t
  | 0, _, mem => (true, mem)
  | n + 1, ender, mem =>
    match mem_escreve mem ender (prog.dado ender) with
    | (true, mem1) => so_carrega_programa_laco prog n (ender + 1) mem1
    | (false, mem1) => (false, mem1)

/-- `so_carrega_programa`: returns the load address or -1. -/
def so_carrega_programa (k : externos) (self : so_t) (nome_do_executavel : List Int) :
    Int × so_t :=
  match k.prog_cria nome_do_executavel with
  | none => (-1, self)
  | some prog =>
    let end_ini := prog.end_carga
    let end_fim := end_ini + prog.tamanho
    match so_carrega_programa_laco prog (end_fim - end_ini).toNat end_ini self.mem with
    | (true, mem1) => (end_ini, { self with mem := mem1 })
    | (false, mem1) => (-1, { self with mem := mem1 })

/-- The `for` loop of `copia_str_da_mem`, with the number of iterations still to run
(`tam - indice_str`) as the recursion argument. -/
def copia_str_da_mem_laco (com_sinal : Bool) (mem : mem_t) (ender : Int) :
    Nat → Nat → (Nat → Int) → Bool × (Nat → Int)
  | 0, _, str => (false, str)
  | resto + 1, indice_str, str =>
    match mem_le mem (ender + indice_str) with
    | none => (false, str)
    | some caractere =>
      if caractere < 0 ∨ caractere > 255 then (false, str)
      else
        let str1 := Function.update str indice_str (char_de_int com_sinal caractere)
        if caractere = 0 then (true, str1)
        else copia_str_da_mem_laco com_sinal mem ender resto (indice_str + 1) str1

/-- `copia_str_da_mem`: the buffer `str` is a function on indices, of which the first `tam`
are the C array of `char`; `com_sinal` says whether `char` is signed. -/
def copia_str_da_mem (com_sinal : Bool) (tam : Nat) (str : Nat → Int) (mem : mem_t)
    (ender : Int) : Bool × (Nat → Int) :=
  copia_str_da_mem_laco com_sinal mem ender tam 0 str

/-- The C string held in a buffer of `tam` characters: the characters before the first NUL. -/
def c_str (tam : Nat) (str : Nat → Int) : List Int :=
  ((List.range tam).map str).takeWhile (fun c => decide (c ≠ 0))

/-- The string literal `"init.maq"`. -/
def nome_init : List Int := [105, 110, 105, 116, 46, 109, 97, 113]

/-! ## Interrupt handlers -/

/-- The `for` loop of `so_trata_irq_reset` run for `i = 0 .. n-1`. -/
def so_trata_irq_reset_laco : Nat → (Nat → processo_t) → (Nat → processo_t)
  | 0, tabela => tabela
  | n + 1, tabela =>
    let t := so_trata_irq_reset_laco n tabela
    Function.update t n { t n with estado := estado_t.PARADO }

/-- `so_trata_irq_reset`. -/
def so_trata_irq_reset (k : externos) (self : so_t) : exec (Int × so_t) :=
  match so_carrega_programa k self nome_init with
  | (ender, s1) =>
    if ender ≠ 100 then exec.ok (k.ERR_CPU_PARADA, s1)
    else if PROCESSOS_MAX < s1.num_processos then exec.indefinido
    else
      let s2 : so_t :=
        { s1 with
          tabela_de_processos := so_trata_irq_reset_laco s1.num_processos s1.tabela_de_processos }
      match so_cria_processo k s2 0 with
      | (none, s3) => exec.ok (k.ERR_CPU_PARADA, s3)
      | (some processo_inicial, s3) =>
        let s4 : so_t :=
          { s3 with
            tabela_de_processos :=
              Function.update s3.tabela_de_processos processo_inicial
                { s3.tabela_de_processos processo_inicial with pc := ender } }
        let s5 : so_t := { s4 with mem := (mem_escreve s4.mem k.IRQ_END_PC ender).2 }
        let s6 : so_t := { s5 with mem := (mem_escreve s5.mem k.IRQ_END_modo k.usuario).2 }
        let s7 : so_t :=
          { s6 with relogio := rel_escr (rel_escr s6.relogio 3 0) 2 INTERVALO_INTERRUPCAO }
        exec.ok (k.ERR_OK, s7)

/-- `so_trata_irq_err_cpu` (the value it reads is only logged). -/
def so_trata_irq_err_cpu (k : externos) (self : so_t) : Int × so_t :=
  (k.ERR_CPU_PARADA, self)

/-- `so_trata_irq_relogio`. -/
def so_trata_irq_relogio (k : externos) (self : so_t) : Int × so_t :=
  (k.ERR_OK,
    { self with relogio := rel_escr (rel_escr self.relogio 3 0) 2 INTERVALO_INTERRUPCAO })

/-- `so_trata_irq_desconhecida`. -/
def so_trata_irq_desconhecida (k : externos) (self : so_t) (_irq : Int) : Int × so_t :=
  (k.ERR_CPU_PARADA, self)

/-! ## System calls -/

/-- Modelled from the spec: terminal device read, which takes the next answer of the
script; the script running out is reported as `exec.esgotado`. -/
def term_le (console : console_t) (_id : Int) : exec (Option Int × console_t) :=
  match console.respostas with
  | [] => exec.esgotado
  | r :: resto => exec.ok (r, { console with respostas := resto })

/-- The busy-wait loop of `so_chamada_le` and `so_chamada_escr` on the script of answers:
`for (;;) { term_le(console, id, &estado); if (estado != 0) break; console_tictac;
console_atualiza; }`, `estado` being undetermined when `term_le` fails. -/
def espera_ocupada_laco (_id : Int) : List (Option Int) → exec (List (Option Int))
  | [] => exec.esgotado
  | none :: _ => exec.indefinido
  | some estado :: resto =>
    if estado ≠ 0 then exec.ok resto else espera_ocupada_laco _id resto

/-- The busy-wait loop on the console. -/
def espera_ocupada (console : console_t) (id : Int) : exec console_t :=
  match espera_ocupada_laco id console.respostas with
  | exec.ok resto => exec.ok { console with respostas := resto }
  | exec.indefinido => exec.indefinido
  | exec.esgotado => exec.esgotado

/-- `so_chamada_le`. -/
def so_chamada_le (k : externos) (self : so_t) : exec so_t :=
  let entrada := Int.tmod (atual self).pid TERMINAIS_MAX
  match espera_ocupada self.console entrada with
  | exec.esgotado => exec.esgotado
  | exec.indefinido => exec.indefinido
  | exec.ok console1 =>
    match term_le console1 entrada with
    | exec.esgotado => exec.esgotado
    | exec.indefinido => exec.indefinido
    | exec.ok (none, _) => exec.indefinido
    | exec.ok (some dado, console2) =>
      exec.ok { self with console := console2, mem := (mem_escreve self.mem k.IRQ_END_A dado).2 }

/-- `so_chamada_escr`. -/
def so_chamada_escr (k : externos) (self : so_t) : exec so_t :=
  let saida := Int.tmod (atual self).pid TERMINAIS_MAX
  match espera_ocupada self.console saida with
  | exec.esgotado => exec.esgotado
  | exec.indefinido => exec.indefinido
  | exec.ok console1 =>
    match mem_le self.mem k.IRQ_END_X with
    | none => exec.indefinido
    | some dado =>
      exec.ok { self with console := term_escr console1 saida dado,
                          mem := (mem_escreve self.mem k.IRQ_END_A 0).2 }

/-- The error exit of `so_chamada_cria_proc`: `mem_escreve(self->mem, self->processo_atual->a, -1)`. -/
def so_chamada_cria_proc_erro (self : so_t) : so_t :=
  { self with mem := (mem_escreve self.mem (atual self).a (-1)).2 }

/-- `so_chamada_cria_proc`.  The local buffer `nome` starts with whatever the stack holds;
only the characters that `copia_str_da_mem` wrote before the NUL are read from it. -/
def so_chamada_cria_proc (k : externos) (self : so_t) : so_t :=
  let ender_proc := (atual self).x
  if (atual self).erro = k.ERR_OK then
    match copia_str_da_mem k.char_com_sinal 100 (fun _ => 0) self.mem ender_proc with
    | (true, nome) =>
      match so_carrega_programa k self (c_str 100 nome) with
      | (ender_carga, s1) =>
        if ender_carga > 0 then
          let pid : Int := s1.num_processos
          let s2 : so_t := { s1 with num_processos := s1.num_processos + 1 }
          match so_cria_processo k s2 pid with
          | (some novo_processo, s3) =>
            let s4 : so_t :=
              { s3 with
                tabela_de_processos :=
                  Function.update s3.tabela_de_processos novo_processo
                    { s3.tabela_de_processos novo_processo with pc := ender_carga } }
            altera_atual s4 (fun p => { p with a := (s4.tabela_de_processos novo_processo).pid })
          | (none, s3) => so_chamada_cria_proc_erro s3
        else so_chamada_cria_proc_erro s1
    | (false, _) => so_chamada_cria_proc_erro self
  else so_chamada_cria_proc_erro self

/-- `so_chamada_mata_proc`. -/
def so_chamada_mata_proc (k : externos) (self : so_t) : so_t :=
  { self with mem := (mem_escreve self.mem k.IRQ_END_A (-1)).2 }

/-- `so_trata_chamada_sistema`; `id_chamada` is undetermined when the read fails. -/
def so_trata_chamada_sistema (k : externos) (self : so_t) : exec (Int × so_t) :=
  match mem_le self.mem k.IRQ_END_A with
  | none => exec.indefinido
  | some id_chamada =>
    if id_chamada = k.SO_LE then
      match so_chamada_le k self with
      | exec.ok s => exec.ok (k.ERR_OK, s)
      | exec.indefinido => exec.indefinido
      | exec.esgotado => exec.esgotado
    else if id_chamada = k.SO_ESCR then
      match so_chamada_escr k self with
      | exec.ok s => exec.ok (k.ERR_OK, s)
      | exec.indefinido => exec.indefinido
      | exec.esgotado => exec.esgotado
    else if id_chamada = k.SO_CRIA_PROC then exec.ok (k.ERR_OK, so_chamada_cria_proc k self)
    else if id_chamada = k.SO_MATA_PROC then exec.ok (k.ERR_OK, so_chamada_mata_proc k self)
    else exec.ok (k.ERR_CPU_PARADA, self)

/-! ## Interrupt entry point -/

/-- `so_trata_irq`: the `switch` is tried in the order of its cases. -/
def so_trata_irq (k : externos) (self : so_t) (irq : Int) : exec (Int × so_t) :=
  if irq = k.IRQ_RESET then so_trata_irq_reset k self
  else if irq = k.IRQ_ERR_CPU then exec.ok (so_trata_irq_err_cpu k self)
  else if irq = k.IRQ_SISTEMA then so_trata_chamada_sistema k self
  else if irq = k.IRQ_RELOGIO then exec.ok (so_trata_irq_relogio k self)
  else exec.ok (so_trata_irq_desconhecida k self irq)

/-- `so_trata_interrupcao`; `comb` is the fuel of the scheduler's loop. -/
def so_trata_interrupcao (k : externos) (comb : Nat) (self : so_t) (reg_A : Int) :
    exec (Int × so_t) :=
  let irq := reg_A
  let s1 := so_salva_estado_da_cpu k self
  match so_trata_irq k s1 irq with
  | exec.indefinido => exec.indefinido
  | exec.esgotado => exec.esgotado
  | exec.ok (err, s2) =>
    let s3 := so_trata_pendencias s2
    match so_escalona comb s3 with
    | exec.indefinido => exec.indefinido
    | exec.esgotado => exec.esgotado
    | exec.ok s4 => exec.ok (err, so_despacha k s4)

/-- `so_cria` when `malloc` succeeds: the table and the record `processo_especial` hold
whatever the allocated block held. -/
def so_cria (k : externos) (mem : mem_t) (console : console_t) (relogio : relogio_t)
    (tabela_inicial : Nat → processo_t) (especial_inicial : processo_t) : so_t :=
  { mem := (mem_escreve (mem_escreve mem 10 k.CHAMAC).2 11 k.RETI).2
    console := console
    relogio := rel_escr relogio 2 INTERVALO_INTERRUPCAO
    processo_atual := ref_processo.especial
    tabela_de_processos := tabela_inicial
    processo_especial := especial_inicial
    num_processos := 0 }

/-! ## Repeated scheduling -/

/-- `so_escalona` called `n` times in a row, each call with fuel `comb`. -/
def so_escalona_vezes (comb : Nat) : Nat → so_t → exec so_t
  | 0, self => exec.ok self
  | n + 1, self =>
    match so_escalona comb self with
    | exec.ok s1 => so_escalona_vezes comb n s1
    | exec.indefinido => exec.indefinido
    | exec.esgotado => exec.esgotado

/-! ## Sample inputs -/

/-- A sample assignment of the external declarations: the register slots at the addresses
0, 1, 2, 3 and 5, the interrupt codes 0 to 3, a signed `char`, and a loader that knows
`init.maq` (two words at address 100) and a program `p` (one word at address 200). -/
def externos_exemplo : externos :=
  { IRQ_END_PC := 0, IRQ_END_A := 1, IRQ_END_X := 2, IRQ_END_erro := 3, IRQ_END_modo := 5,
    IRQ_RESET := 0, IRQ_ERR_CPU := 1, IRQ_SISTEMA := 2, IRQ_RELOGIO := 3,
    SO_LE := 1, SO_ESCR := 2, SO_CRIA_PROC := 7, SO_MATA_PROC := 8,
    ERR_OK := 0, ERR_CPU_PARADA := 4, usuario := 1, CHAMAC := 22, RETI := 21,
    char_com_sinal := true,
    prog_cria := fun nome =>
      if nome = nome_init then some { end_carga := 100, tamanho := 2, dado := fun _ => 0 }
      else if nome = [112] then some { end_carga := 200, tamanho := 1, dado := fun _ => 0 }
      else none }

/-- A memory of 300 words, all zero. -/
def mem_exemplo : mem_t := fun e => if 0 ≤ e ∧ e < 300 then some 0 else none

/-- A descriptor with the given `pid`, `estado` and `pc`, the other registers zero. -/
def processo_exemplo (pid : Int) (estado : estado_t) (pc : Int) : processo_t :=
  { pid := pid, estado := estado, pc := pc, a := 0, x := 0, erro := 0 }

/-- A memory of 300 words holding the byte 200 at address 20 and zero elsewhere. -/
def mem_byte_alto : mem_t := fun e =>
  if e = 20 then some 200 else if 0 ≤ e ∧ e < 300 then some 0 else none

/-- Three processes, of which only slot 2 is READY; the current record is slot 0. -/
def estado_tres_processos : so_t :=
  { mem := mem_exemplo
    console := { respostas := [], escritos := [] }
    relogio := fun _ => 0
    processo_atual := ref_processo.entrada ⟨0, by decide⟩
    tabela_de_processos := fun i =>
      processo_exemplo 0 (if i = 2 then estado_t.PRONTO else estado_t.BLOQUEADO) 0
    processo_especial := processo_exemplo 0 estado_t.PARADO 0
    num_processos := 3 }

/-- The state right after a boot: one process (slot 0, READY, `pc = 100`), the current
record still `processo_especial`, whose saved `pc` is 7. -/
def estado_um_processo : so_t :=
  { mem := mem_exemplo
    console := { respostas := [], escritos := [] }
    relogio := fun _ => 0
    processo_atual := ref_processo.especial
    tabela_de_processos := fun _ => processo_exemplo 0 estado_t.PRONTO 100
    processo_especial := processo_exemplo 0 estado_t.PARADO 7
    num_processos := 1 }

/-- The state built by `so_cria` over the sample memory, the allocated block holding a
`processo_especial` whose `pc` field is 7. -/
def estado_inicial : so_t :=
  so_cria externos_exemplo mem_exemplo { respostas := [], escritos := [] } (fun _ => 0)
    (fun _ => processo_exemplo 0 estado_t.PARADO 0) (processo_exemplo 0 estado_t.PARADO 7)

/-- A memory of 300 words in which the accumulator slot holds the call number 7 (create
process) and the words from address 20 hold the name `p` and its NUL. -/
def mem_cria_proc : mem_t := fun e =>
  if e = 1 then some 7 else if e = 20 then some 112 else if 0 ≤ e ∧ e < 300 then some 0 else none

/-- A full table: `num_processos = 100`, every slot READY with its index as pid; the current
record is `processo_especial`, with `x = 20` (address of the program name), `erro = 0`. -/
def estado_tabela_cheia : so_t :=
  { mem := mem_cria_proc
    console := { respostas := [], escritos := [] }
    relogio := fun _ => 0
    processo_atual := ref_processo.especial
    tabela_de_processos := fun i => processo_exemplo i estado_t.PRONTO 100
    processo_especial := { pid := 0, estado := estado_t.PARADO, pc := 0, a := 0, x := 20, erro := 0 }
    num_processos := 100 }

/-- A table with its last slot free: `num_processos = 99`; slot 99 was never created and
holds a stale descriptor (READY, `pc = 100`).  The current record is `processo_especial`,
with `x = 20` (address of the program name), `a = 0`, `erro = 0`. -/
def estado_ultimo_slot_livre : so_t :=
  { mem := mem_cria_proc
    console := { respostas := [], escritos := [] }
    relogio := fun _ => 0
    processo_atual := ref_processo.especial
    tabela_de_processos := fun i => processo_exemplo i estado_t.PRONTO 100
    processo_especial := { pid := 0, estado := estado_t.PARADO, pc := 0, a := 0, x := 20, erro := 0 }
    num_processos := 99 }

/-- One process (slot 0); the slots above were never created and hold a STOPPED descriptor
with pid 77.  The current record is `processo_especial`, with `x = 20`, `a = 0`,
`erro = 0`, and the memory asks for a create-process call. -/
def estado_cria_proc : so_t :=
  { mem := mem_cria_proc
    console := { respostas := [], escritos := [] }
    relogio := fun _ => 0
    processo_atual := ref_processo.especial
    tabela_de_processos := fun i =>
      if i = 0 then processo_exemplo 0 estado_t.PRONTO 100
      else processo_exemplo 77 estado_t.PARADO 0
    processo_especial := { pid := 0, estado := estado_t.PARADO, pc := 0, a := 0, x := 20, erro := 0 }
    num_processos := 1 }

/-- The sample declarations with a loader whose `init.maq` is one word (42) placed at
address 0. -/
def externos_carga_baixa : externos :=
  { externos_exemplo with
    prog_cria := fun nome =>
      if nome = nome_init then some { end_carga := 0, tamanho := 1, dado := fun _ => 42 }
      else none }

/-- The sample declarations with a loader that finds no program at all. -/
def externos_sem_programas : externos :=
  { externos_exemplo with prog_cria := fun _ => none }

/-- A memory of 300 zero words whose accumulator slot holds the call number `id`. -/
def mem_chamada (id : Int) : mem_t := fun e =>
  if e = 1 then some id else if 0 ≤ e ∧ e < 300 then some 0 else none

/-- The one-process state at a system call `id`, with a terminal that answers "not ready",
then "ready", then the datum 65. -/
def estado_chamada (id : Int) : so_t :=
  { estado_um_processo with
    mem := mem_chamada id
    console := { respostas := [some 0, some 1, some 65], escritos := [] } }

/-! ## Basic facts about the pointer `processo_atual` -/

theorem atual_altera_atual (self : so_t) (f : processo_t → processo_t) :
    atual (altera_atual self f) = f (atual self) := by
  unfold atual altera_atual
  cases h : self.processo_atual <;> simp [h]

theorem altera_atual_num (self : so_t) (f : processo_t → processo_t) :
    (altera_atual self f).num_processos = self.num_processos := by
  unfold altera_atual
  cases self.processo_atual <;> rfl

theorem altera_atual_mem (self : so_t) (f : processo_t → processo_t) :
    (altera_atual self f).mem = self.mem := by
  unfold altera_atual
  cases self.processo_atual <;> rfl

theorem altera_atual_ref (self : so_t) (f : processo_t → processo_t) :
    (altera_atual self f).processo_atual = self.processo_atual := by
  unfold altera_atual
  cases h : self.processo_atual <;> simp [h]

/-- Changing only the `pid` of the current record changes no `estado` in the table. -/
theorem altera_atual_pid_estado (self : so_t) (v : Int) (j : Nat) :
    ((altera_atual self (fun p => { p with pid := v })).tabela_de_processos j).estado
      = (self.tabela_de_processos j).estado := by
  unfold altera_atual
  cases self.processo_atual with
  | especial => rfl
  | entrada i =>
    by_cases hj : j = i.val
    · subst hj; simp
    · simp [Function.update_noteq hj]

/-! ## The scheduler's loop -/

theorem tmod_succ_cast (p num : Nat) :
    Int.tmod ((p : Int) + 1) (num : Int) = (((p + 1) % num : Nat) : Int) := by
  have h : ((p : Int) + 1) = ((p + 1 : Nat) : Int) := by push_cast; rfl
  rw [h]
  exact (Int.ofNat_tmod _ _).symm

/-- A sum that fits in 32 bits is not changed by the wrap. -/
theorem soma_int_exato (a b : Int) (h1 : -2147483648 ≤ a + b) (h2 : a + b < 2147483648) :
    soma_int a b = a + b := by
  unfold soma_int
  omega

/-- The successor of an index below `INT_MAX`, reduced modulo `num`. -/
theorem tmod_soma_int_cast (p num : Nat) (hp : (p : Int) < INT_MAX) :
    Int.tmod (soma_int (p : Int) 1) (num : Int) = (((p + 1) % num : Nat) : Int) := by
  unfold INT_MAX at hp
  rw [soma_int_exato _ _ (by omega) (by omega), tmod_succ_cast]

/-- One turn of the scheduler's loop. -/
theorem so_escalona_laco_passo (tabela : Nat → processo_t) (num comb : Nat) (prox : Int) :
    so_escalona_laco tabela num (comb + 1) prox =
      if prox < 0 ∨ (PROCESSOS_MAX : Int) ≤ prox then exec.indefinido
      else if (tabela prox.toNat).estado ≠ estado_t.PRONTO then
        so_escalona_laco tabela num comb (Int.tmod (soma_int prox 1) num)
      else exec.ok prox := rfl

/-- Started at slot `p`, with the first READY slot `d` steps further round the circle, the
loop stops at that slot as soon as it has `d + 1` units of fuel. -/
theorem so_escalona_laco_acha (tabela : Nat → processo_t) (num : Nat)
    (hmax : num ≤ PROCESSOS_MAX) :
    ∀ (d p comb : Nat), p < num → d < comb →
      (∀ e, e < d → (tabela ((p + e) % num)).estado ≠ estado_t.PRONTO) →
      (tabela ((p + d) % num)).estado = estado_t.PRONTO →
      so_escalona_laco tabela num comb (p : Int) = exec.ok (((p + d) % num : Nat) : Int) := by
  intro d
  induction d with
  | zero =>
    intro p comb hp hc _ hd
    obtain ⟨c, rfl⟩ : ∃ c, comb = c + 1 := ⟨comb - 1, by omega⟩
    have hpm : (p + 0) % num = p := by simp [Nat.mod_eq_of_lt hp]
    rw [hpm] at hd ⊢
    have hb : ¬ ((p : Int) < 0 ∨ (PROCESSOS_MAX : Int) ≤ (p : Int)) := by
      have : p < PROCESSOS_MAX := lt_of_lt_of_le hp hmax
      omega
    rw [so_escalona_laco_passo, if_neg hb, Int.toNat_ofNat, if_neg (not_not.mpr hd)]
  | succ d ih =>
    intro p comb hp hc hnot hd
    obtain ⟨c, rfl⟩ : ∃ c, comb = c + 1 := ⟨comb - 1, by omega⟩
    have hb : ¬ ((p : Int) < 0 ∨ (PROCESSOS_MAX : Int) ≤ (p : Int)) := by
      have : p < PROCESSOS_MAX := lt_of_lt_of_le hp hmax
      omega
    have h0 : (tabela p).estado ≠ estado_t.PRONTO := by
      have := hnot 0 (Nat.succ_pos d)
      simpa [Nat.mod_eq_of_lt hp] using this
    have hnum : 0 < num := by omega
    have hstep : ∀ e, ((p + 1) % num + e) % num = (p + (e + 1)) % num := by
      intro e
      rw [Nat.mod_add_mod]
      congr 1
      omega
    have hrec := ih ((p + 1) % num) c (Nat.mod_lt _ hnum) (by omega)
      (fun e he => by rw [hstep]; exact hnot (e + 1) (by omega))
      (by rw [hstep]; exact hd)
    rw [hstep] at hrec
    have hpi : (p : Int) < INT_MAX := by
      have : p < 100 := lt_of_lt_of_le hp hmax
      unfold INT_MAX
      omega
    rw [so_escalona_laco_passo, if_neg hb, Int.toNat_ofNat, if_pos h0,
      tmod_soma_int_cast p num hpi]
    exact hrec

/-- If some slot below `num` is READY, then walking round the circle from any slot `p`
meets a first READY slot in fewer than `num` steps. -/
theorem primeiro_pronto_existe (tabela : Nat → processo_t) (num p : Nat) (hp : p < num)
    (h : ∃ j, j < num ∧ (tabela j).estado = estado_t.PRONTO) :
    ∃ d, d < num ∧ (tabela ((p + d) % num)).estado = estado_t.PRONTO ∧
      ∀ e, e < d → (tabela ((p + e) % num)).estado ≠ estado_t.PRONTO := by
  obtain ⟨j, hj, hjp⟩ := h
  have hex : ∃ d, d < num ∧ (tabela ((p + d) % num)).estado = estado_t.PRONTO := by
    refine ⟨(j + num - p) % num, Nat.mod_lt _ (by omega), ?_⟩
    have : (p + (j + num - p) % num) % num = j := by
      rw [Nat.add_mod_mod]
      have : p + (j + num - p) = j + num := by omega
      rw [this, Nat.add_mod_right, Nat.mod_eq_of_lt hj]
    rw [this]
    exact hjp
  classical
  refine ⟨Nat.find hex, (Nat.find_spec hex).1, (Nat.find_spec hex).2, ?_⟩
  intro e he hpr
  exact Nat.find_min hex he ⟨lt_trans he (Nat.find_spec hex).1, hpr⟩

/-! ## C1: the scheduler -/

/-- C2 (evaluation at the failing input): a clock interrupt in the state with one READY
process (slot 0, saved `pc = 100`) and `processo_especial` current (saved `pc = 7`).  The
scheduler selects slot 0, but the slot `IRQ_END_PC` ends up holding 7, the `pc` of
`processo_especial`, not the 100 saved in the selected entry. -/
theorem so_trata_interrupcao_despacha_registro_antigo :
    ∃ s1 : so_t,
      so_trata_interrupcao externos_exemplo 1 estado_um_processo externos_exemplo.IRQ_RELOGIO
        = exec.ok (externos_exemplo.ERR_OK, s1) ∧
      (atual s1).pid = 0 ∧
      (s1.tabela_de_processos 0).estado = estado_t.PRONTO ∧
      (s1.tabela_de_processos 0).pc = 100 ∧
      s1.mem externos_exemplo.IRQ_END_PC = some 7 :=
  ⟨_, rfl, by decide, by decide, by decide, by decide⟩

/-! ## C3: the reset handler -/

/-- The loader glue changes nothing but the memory. -/
theorem so_carrega_programa_so_mem (k : externos) (self : so_t) (nome : List Int) :
    ∃ m : mem_t, (so_carrega_programa k self nome).2 = { self with mem := m } := by
  unfold so_carrega_programa
  cases k.prog_cria nome with
  | none => exact ⟨self.mem, rfl⟩
  | some prog =>
    simp only
    rcases so_carrega_programa_laco prog (prog.end_carga + prog.tamanho - prog.end_carga).toNat
      prog.end_carga self.mem with ⟨b, m⟩
    cases b <;> exact ⟨m, rfl⟩

/-- The loop of the reset handler stops the slots below `n` and leaves the others. -/
theorem so_trata_irq_reset_laco_spec (n : Nat) (tabela : Nat → processo_t) (j : Nat) :
    so_trata_irq_reset_laco n tabela j
      = if j < n then { tabela j with estado := estado_t.PARADO } else tabela j := by
  induction n with
  | zero => simp [so_trata_irq_reset_laco]
  | succ n ih =>
    simp only [so_trata_irq_reset_laco]
    by_cases hj : j = n
    · subst hj
      simp [ih]
    · rw [Function.update_noteq hj, ih]
      by_cases h1 : j < n
      · simp [h1, Nat.lt_succ_of_lt h1]
      · have : ¬ j < n + 1 := by omega
        simp [h1, this]

/-- C3: in every state whose table is not full and in which the load of `init.maq` reports
address 100, `so_trata_irq_reset` returns `ERR_OK`; afterwards `num_processos` is one more,
the new entry (at slot old `num_processos`) is {pid 0, READY, pc = the load address, a 0,
x 0, erro `ERR_OK`}, every entry that existed before is STOPPED (its other fields kept), the
slots above are untouched, and the new entry is the only one of the table that is not
STOPPED: the table holds exactly one live process. -/
theorem so_trata_irq_reset_um_processo (k : externos) (self : so_t)
    (hcap : self.num_processos < PROCESSOS_MAX)
    (hcarga : (so_carrega_programa k self nome_init).1 = 100) :
    ∃ s1 : so_t,
      so_trata_irq_reset k self = exec.ok (k.ERR_OK, s1) ∧
      s1.num_processos = self.num_processos + 1 ∧
      s1.tabela_de_processos self.num_processos =
        { pid := 0, estado := estado_t.PRONTO,
          pc := (so_carrega_programa k self nome_init).1, a := 0, x := 0, erro := k.ERR_OK } ∧
      (∀ j, j < self.num_processos →
        s1.tabela_de_processos j
          = { self.tabela_de_processos j with estado := estado_t.PARADO }) ∧
      (∀ j, self.num_processos < j →
        s1.tabela_de_processos j = self.tabela_de_processos j) ∧
      (∀ j, j < s1.num_processos →
        ((s1.tabela_de_processos j).estado ≠ estado_t.PARADO ↔ j = self.num_processos)) := by
  obtain ⟨m, hm⟩ := so_carrega_programa_so_mem k self nome_init
  have hpair : so_carrega_programa k self nome_init = (100, { self with mem := m }) := by
    rw [← hm, ← hcarga]
  have hnot : ¬ PROCESSOS_MAX < self.num_processos := by omega
  have hres : ∃ s1 : so_t, so_trata_irq_reset k self = exec.ok (k.ERR_OK, s1) ∧
      s1.num_processos = self.num_processos + 1 ∧
      s1.tabela_de_processos = Function.update
        (so_trata_irq_reset_laco self.num_processos self.tabela_de_processos)
        self.num_processos
        { pid := 0, estado := estado_t.PRONTO, pc := 100, a := 0, x := 0, erro := k.ERR_OK } := by
    refine ⟨{ self with
        mem := (mem_escreve (mem_escreve m k.IRQ_END_PC 100).2 k.IRQ_END_modo k.usuario).2
        relogio := rel_escr (rel_escr self.relogio 3 0) 2 INTERVALO_INTERRUPCAO
        num_processos := self.num_processos + 1
        tabela_de_processos := Function.update
          (so_trata_irq_reset_laco self.num_processos self.tabela_de_processos)
          self.num_processos
          { pid := 0, estado := estado_t.PRONTO, pc := 100, a := 0, x := 0, erro := k.ERR_OK } },
      ?_, rfl, rfl⟩
    unfold so_trata_irq_reset
    rw [hpair]
    simp [so_cria_processo, hcap, hnot]
  obtain ⟨s1, h1, h2, h3⟩ := hres
  refine ⟨s1, h1, h2, ?_, ?_, ?_, ?_⟩
  · rw [h3, hcarga]; simp
  · intro j hj
    rw [h3, Function.update_noteq (by omega), so_trata_irq_reset_laco_spec, if_pos hj]
  · intro j hj
    rw [h3, Function.update_noteq (by omega), so_trata_irq_reset_laco_spec, if_neg (by omega)]
  · intro j hj
    rw [h2] at hj
    by_cases hjn : j = self.num_processos
    · subst hjn
      rw [h3]; simp
    · have hlt : j < self.num_processos := by omega
      rw [h3, Function.update_noteq hjn, so_trata_irq_reset_laco_spec, if_pos hlt]
      simp [hjn]

/-- Witness of C3 at the one-process state, where `init.maq` loads at 100. -/
theorem so_trata_irq_reset_um_processo_witness :
    ∃ s1 : so_t,
      so_trata_irq_reset externos_exemplo estado_um_processo
        = exec.ok (externos_exemplo.ERR_OK, s1) ∧
      s1.num_processos = estado_um_processo.num_processos + 1 ∧
      s1.tabela_de_processos estado_um_processo.num_processos =
        { pid := 0, estado := estado_t.PRONTO,
          pc := (so_carrega_programa externos_exemplo estado_um_processo nome_init).1,
          a := 0, x := 0, erro := externos_exemplo.ERR_OK } ∧
      (∀ j, j < estado_um_processo.num_processos →
        s1.tabela_de_processos j
          = { estado_um_processo.tabela_de_processos j with estado := estado_t.PARADO }) ∧
      (∀ j, estado_um_processo.num_processos < j →
        s1.tabela_de_processos j = estado_um_processo.tabela_de_processos j) ∧
      (∀ j, j < s1.num_processos →
        ((s1.tabela_de_processos j).estado ≠ estado_t.PARADO
          ↔ j = estado_um_processo.num_processos)) :=
  so_trata_irq_reset_um_processo externos_exemplo estado_um_processo (by decide) (by rfl)

/-! ## C4: reset, end to end -/

/-- C4 (evaluation at the failing input): the reset interrupt taken in the state built by
`so_cria`, the record `processo_especial` holding `pc = 7` and the loader placing `init.maq`
at address 100.  The table ends with the single entry {pid 0, READY, pc 100} and the mode
slot holds user mode, but the slot `IRQ_END_PC` holds 7: the 100 written by the reset
handler is overwritten by `so_despacha` with the `pc` of `processo_especial`. -/
theorem so_trata_interrupcao_reset_pc_do_especial :
    estado_inicial.processo_atual = ref_processo.especial ∧
    estado_inicial.num_processos = 0 ∧
    (so_carrega_programa externos_exemplo estado_inicial nome_init).1 = 100 ∧
    ∃ s1 : so_t,
      so_trata_interrupcao externos_exemplo 1 estado_inicial externos_exemplo.IRQ_RESET
        = exec.ok (externos_exemplo.ERR_OK, s1) ∧
      s1.num_processos = 1 ∧
      s1.tabela_de_processos 0 = processo_exemplo 0 estado_t.PRONTO 100 ∧
      s1.mem externos_exemplo.IRQ_END_modo = some externos_exemplo.usuario ∧
      s1.mem externos_exemplo.IRQ_END_PC = some 7 :=
  ⟨rfl, rfl, by rfl, _, rfl, by decide, by decide, by decide, by decide⟩

/-! ## C5, C6: context save and dispatch -/

/-- With `processo_especial` current, the context save changes nothing. -/
theorem so_salva_estado_da_cpu_especial (k : externos) (self : so_t)
    (h : self.processo_atual = ref_processo.especial) :
    so_salva_estado_da_cpu k self = self := by
  unfold so_salva_estado_da_cpu
  rw [if_pos h]

/-- Writing back the value an address already holds leaves the memory as it was. -/
theorem mem_escreve_mesmo_valor (mem : mem_t) (ender v : Int) (h : mem ender = some v) :
    (mem_escreve mem ender v).2 = mem := by
  unfold mem_escreve
  simp only [h, Option.isSome_some, if_true]
  rw [← h]
  exact Function.update_eq_self ender mem

/-- With a table entry as current record and the four register slots readable, saving and
then dispatching leaves the whole memory as it was. -/
theorem salva_despacha_entrada (k : externos) (self : so_t) (i : Fin PROCESSOS_MAX)
    (h : self.processo_atual = ref_processo.entrada i)
    (vpc va vx ve : Int)
    (hpc : self.mem k.IRQ_END_PC = some vpc) (ha : self.mem k.IRQ_END_A = some va)
    (hx : self.mem k.IRQ_END_X = some vx) (he : self.mem k.IRQ_END_erro = some ve) :
    (so_despacha k (so_salva_estado_da_cpu k self)).mem = self.mem := by
  have hs : so_salva_estado_da_cpu k self =
      altera_atual self (fun p => { p with pc := vpc, a := va, x := vx, erro := ve }) := by
    unfold so_salva_estado_da_cpu
    rw [if_neg (by rw [h]; simp)]
    simp only [altera_atual_mem, mem_le, hpc, ha, hx, he]
    unfold altera_atual
    simp [h]
  rw [hs]
  unfold so_despacha
  simp only [atual_altera_atual, altera_atual_mem]
  rw [mem_escreve_mesmo_valor _ _ _ hpc, mem_escreve_mesmo_valor _ _ _ ha,
    mem_escreve_mesmo_valor _ _ _ hx, mem_escreve_mesmo_valor _ _ _ he]

/-- C5 (evaluation at the failing input): with `processo_especial` current (saved `pc = 7`)
and the four register slots accessible and holding 0, `so_salva_estado_da_cpu` followed by
`so_despacha` leaves 7 in the slot `IRQ_END_PC`. -/
theorem salva_despacha_com_especial_altera_pc :
    estado_um_processo.mem externos_exemplo.IRQ_END_PC = some 0 ∧
    estado_um_processo.mem externos_exemplo.IRQ_END_A = some 0 ∧
    estado_um_processo.mem externos_exemplo.IRQ_END_X = some 0 ∧
    estado_um_processo.mem externos_exemplo.IRQ_END_erro = some 0 ∧
    (so_despacha externos_exemplo
      (so_salva_estado_da_cpu externos_exemplo estado_um_processo)).mem
        externos_exemplo.IRQ_END_PC = some 7 :=
  ⟨by decide, by decide, by decide, by decide, by decide⟩

/-- C6 (evaluation at the failing input): with `processo_especial` current,
`so_salva_estado_da_cpu` changes nothing, but `so_despacha` is not a no-op: the slot
`IRQ_END_PC`, which held 0, holds the `pc` of `processo_especial` (7) afterwards. -/
theorem so_despacha_com_especial_escreve :
    estado_um_processo.processo_atual = ref_processo.especial ∧
    so_salva_estado_da_cpu externos_exemplo estado_um_processo = estado_um_processo ∧
    estado_um_processo.mem externos_exemplo.IRQ_END_PC = some 0 ∧
    (so_despacha externos_exemplo estado_um_processo).mem externos_exemplo.IRQ_END_PC
      = some 7 :=
  ⟨rfl, rfl, by decide, by decide⟩

/-! ## C7: `so_cria_processo` -/

/-- C7: with `num_processos ≥ PROCESSOS_MAX`, `so_cria_processo` returns `NULL` and leaves
the whole state (every table entry and `num_processos`) as it was; with
`num_processos < PROCESSOS_MAX` it returns the entry at slot old `num_processos`, set to
{pid, READY, pc 0, a 0, x 0, erro `ERR_OK`}, increments `num_processos` by exactly one and
leaves every other slot (and the rest of the state) as it was. -/
theorem so_cria_processo_contrato (k : externos) (self : so_t) (pid : Int) :
    (PROCESSOS_MAX ≤ self.num_processos → so_cria_processo k self pid = (none, self)) ∧
    (self.num_processos < PROCESSOS_MAX →
      ∃ s1 : so_t,
        so_cria_processo k self pid = (some self.num_processos, s1) ∧
        s1.tabela_de_processos self.num_processos =
          { pid := pid, estado := estado_t.PRONTO, pc := 0, a := 0, x := 0, erro := k.ERR_OK } ∧
        s1.num_processos = self.num_processos + 1 ∧
        (∀ j, j ≠ self.num_processos →
          s1.tabela_de_processos j = self.tabela_de_processos j) ∧
        s1.processo_especial = self.processo_especial ∧
        s1.processo_atual = self.processo_atual ∧
        s1.mem = self.mem) := by
  constructor
  · intro h
    unfold so_cria_processo
    rw [if_neg (by omega)]
  · intro h
    refine ⟨{ self with
        num_processos := self.num_processos + 1
        tabela_de_processos := Function.update self.tabela_de_processos self.num_processos
          { pid := pid, estado := estado_t.PRONTO, pc := 0, a := 0, x := 0, erro := k.ERR_OK } },
      by unfold so_cria_processo; rw [if_pos h], ?_, rfl, ?_, rfl, rfl, rfl⟩
    · simp
    · intro j hj
      simp [Function.update_noteq hj]

/-- Witness of C7 at the full table (first part) and at the one-process state (second
part). -/
theorem so_cria_processo_contrato_witness :
    so_cria_processo externos_exemplo estado_tabela_cheia 5 = (none, estado_tabela_cheia) ∧
    ∃ s1 : so_t,
      so_cria_processo externos_exemplo estado_um_processo 5
        = (some estado_um_processo.num_processos, s1) ∧
      s1.tabela_de_processos estado_um_processo.num_processos =
        { pid := 5, estado := estado_t.PRONTO, pc := 0, a := 0, x := 0,
          erro := externos_exemplo.ERR_OK } ∧
      s1.num_processos = estado_um_processo.num_processos + 1 ∧
      (∀ j, j ≠ estado_um_processo.num_processos →
        s1.tabela_de_processos j = estado_um_processo.tabela_de_processos j) ∧
      s1.processo_especial = estado_um_processo.processo_especial ∧
      s1.processo_atual = estado_um_processo.processo_atual ∧
      s1.mem = estado_um_processo.mem :=
  ⟨(so_cria_processo_contrato externos_exemplo estado_tabela_cheia 5).1 (by decide),
   (so_cria_processo_contrato externos_exemplo estado_um_processo 5).2 (by decide)⟩

/-! ## C8: the bound on `num_processos` -/

/-- C8 (evaluation at the failing input): a create-process system call taken with a full
table (`num_processos = 100`), a readable program name and a program that loads at address
200.  The call returns `ERR_OK` and leaves `num_processos = 101`, above `PROCESSOS_MAX`:
`so_chamada_cria_proc` increments the counter on its own before `so_cria_processo` finds the
table full. -/
theorem so_trata_interrupcao_cria_proc_tabela_cheia :
    estado_tabela_cheia.num_processos = PROCESSOS_MAX ∧
    estado_tabela_cheia.mem externos_exemplo.IRQ_END_A = some externos_exemplo.SO_CRIA_PROC ∧
    ∃ s1 : so_t,
      so_trata_interrupcao externos_exemplo 1 estado_tabela_cheia externos_exemplo.IRQ_SISTEMA
        = exec.ok (externos_exemplo.ERR_OK, s1) ∧
      s1.num_processos = 101 ∧
      ¬ s1.num_processos ≤ PROCESSOS_MAX :=
  ⟨rfl, by decide, _, rfl, by decide, by decide⟩

/-! ## C9: `copia_str_da_mem` -/

/-- The conversion to `char` keeps every value below 128, and every value where `char` is
unsigned. -/
theorem char_de_int_exato (com_sinal : Bool) (c : Int) (h : c < 128 ∨ com_sinal = false) :
    char_de_int com_sinal c = c := by
  unfold char_de_int
  rcases h with h | h
  · rw [if_neg (by omega)]
  · rw [if_neg (by simp [h])]

/-- Soundness of the copy loop: when it returns `true` from index `i` on, a NUL was read
`k` characters further on, before the iterations ran out, after `k` characters in 1..255;
the buffer holds what was read, converted to `char`, at the indices `i .. i+k` and is
untouched elsewhere. -/
theorem copia_str_da_mem_laco_true (com_sinal : Bool) (mem : mem_t) (ender : Int) :
    ∀ (resto i : Nat) (str : Nat → Int),
      (copia_str_da_mem_laco com_sinal mem ender resto i str).1 = true →
      ∃ k, k < resto ∧
        (∀ j, j < k → ∃ v, mem_le mem (ender + ((i + j : Nat) : Int)) = some v ∧ 1 ≤ v ∧ v ≤ 255) ∧
        mem_le mem (ender + ((i + k : Nat) : Int)) = some 0 ∧
        (∀ j, i ≤ j → j ≤ i + k →
          ∃ v, mem_le mem (ender + (j : Int)) = some v ∧
            (copia_str_da_mem_laco com_sinal mem ender resto i str).2 j
              = char_de_int com_sinal v) ∧
        (∀ j, (j < i ∨ i + k < j) →
          (copia_str_da_mem_laco com_sinal mem ender resto i str).2 j = str j) := by
  intro resto
  induction resto with
  | zero => intro i str h; simp [copia_str_da_mem_laco] at h
  | succ resto ih =>
    intro i str h
    unfold copia_str_da_mem_laco at h ⊢
    cases hc : mem_le mem (ender + (i : Int)) with
    | none => simp [hc] at h
    | some c =>
      simp only [hc] at h ⊢
      by_cases hr : c < 0 ∨ c > 255
      · simp [hr] at h
      · rw [if_neg hr] at h ⊢
        by_cases hz : c = 0
        · rw [if_pos hz]
          refine ⟨0, Nat.succ_pos _, ?_, ?_, ?_, ?_⟩
          · intro j hj; omega
          · simpa [hz] using hc
          · intro j h1 h2
            have : j = i := by omega
            subst this
            exact ⟨c, hc, by simp⟩
          · intro j hj
            have : j ≠ i := by omega
            simp [Function.update_noteq this]
        · rw [if_neg hz] at h ⊢
          obtain ⟨k, hk, hval, hnul, hcopia, hfora⟩ := ih (i + 1) _ h
          refine ⟨k + 1, Nat.succ_lt_succ hk, ?_, ?_, ?_, ?_⟩
          · intro j hj
            cases j with
            | zero => exact ⟨c, by simpa using hc, by omega, by omega⟩
            | succ j =>
              have := hval j (by omega)
              have e : i + 1 + j = i + (j + 1) := by omega
              rwa [e] at this
          · have e : i + 1 + k = i + (k + 1) := by omega
            rwa [e] at hnul
          · intro j h1 h2
            by_cases hji : j = i
            · subst hji
              rw [hfora j (Or.inl (Nat.lt_succ_self _))]
              exact ⟨c, hc, by simp⟩
            · exact hcopia j (by omega) (by omega)
          · intro j hj
            have hji : j ≠ i := by omega
            rw [hfora j (by omega), Function.update_noteq hji]

/-- Completeness of the copy loop: a NUL `k` characters further on, reached before the
iterations run out and after `k` characters in 1..255, makes the loop return `true`. -/
theorem copia_str_da_mem_laco_completo (com_sinal : Bool) (mem : mem_t) (ender : Int) :
    ∀ (resto i : Nat) (str : Nat → Int) (k : Nat), k < resto →
      (∀ j, j < k → ∃ v, mem_le mem (ender + ((i + j : Nat) : Int)) = some v ∧ 1 ≤ v ∧ v ≤ 255) →
      mem_le mem (ender + ((i + k : Nat) : Int)) = some 0 →
      (copia_str_da_mem_laco com_sinal mem ender resto i str).1 = true := by
  intro resto
  induction resto with
  | zero => intro i str k hk; omega
  | succ resto ih =>
    intro i str k hk hval hnul
    unfold copia_str_da_mem_laco
    cases k with
    | zero =>
      have hc : mem_le mem (ender + (i : Int)) = some 0 := by simpa using hnul
      simp [hc]
    | succ k =>
      obtain ⟨v, hv, h1, h255⟩ := hval 0 (Nat.succ_pos _)
      have hc : mem_le mem (ender + (i : Int)) = some v := by simpa using hv
      have hr : ¬ (v < 0 ∨ v > 255) := by omega
      have hz : v ≠ 0 := by omega
      simp only [hc, if_neg hr, if_neg hz]
      apply ih (i + 1) _ k (by omega)
      · intro j hj
        have := hval (j + 1) (by omega)
        have e : i + 1 + j = i + (j + 1) := by omega
        rwa [e]
      · have e : i + 1 + k = i + (k + 1) := by omega
        rwa [e]

/-- C9 (as amended): whether `char` is signed or not, `copia_str_da_mem` returns `true` if
and only if there is an index `k < tam` such that all the reads at `ender .. ender+k`
succeed, the values at `ender .. ender+k-1` are in 1..255 and the value at `ender+k` is 0.
When it returns `true`, for the smallest such `k` the buffer holds in `str[0..k]` the values
read at `ender .. ender+k` converted to `char`: exactly those values where they are below 128
or `char` is unsigned, the value minus 256 for 128..255 where `char` is signed; `str[k] = 0`
and the rest of the buffer is untouched.  It returns `false` when, after characters in
1..255, a read fails or yields a value outside 0..255, and when no NUL occurs within `tam`
characters. -/
theorem copia_str_da_mem_spec (com_sinal : Bool) (tam : Nat) (str : Nat → Int) (mem : mem_t)
    (ender : Int) :
    ((copia_str_da_mem com_sinal tam str mem ender).1 = true ↔
      ∃ k, k < tam ∧
        (∀ j : Nat, j ≤ k → (mem_le mem (ender + (j : Int))).isSome) ∧
        (∀ j : Nat, j < k → ∃ v, mem_le mem (ender + (j : Int)) = some v ∧ 1 ≤ v ∧ v ≤ 255) ∧
        mem_le mem (ender + (k : Int)) = some 0) ∧
    ((copia_str_da_mem com_sinal tam str mem ender).1 = true →
      ∃ k, k < tam ∧
        (∀ j : Nat, j ≤ k → (mem_le mem (ender + (j : Int))).isSome) ∧
        (∀ j : Nat, j < k → ∃ v, mem_le mem (ender + (j : Int)) = some v ∧ 1 ≤ v ∧ v ≤ 255) ∧
        mem_le mem (ender + (k : Int)) = some 0 ∧
        (∀ k1 : Nat, mem_le mem (ender + (k1 : Int)) = some 0 → k ≤ k1) ∧
        (∀ j : Nat, j ≤ k →
          ∃ v, mem_le mem (ender + (j : Int)) = some v ∧
            (copia_str_da_mem com_sinal tam str mem ender).2 j = char_de_int com_sinal v ∧
            ((v < 128 ∨ com_sinal = false) →
              (copia_str_da_mem com_sinal tam str mem ender).2 j = v) ∧
            ((128 ≤ v ∧ com_sinal = true) →
              (copia_str_da_mem com_sinal tam str mem ender).2 j = v - 256)) ∧
        (copia_str_da_mem com_sinal tam str mem ender).2 k = 0 ∧
        (∀ j : Nat, k < j → (copia_str_da_mem com_sinal tam str mem ender).2 j = str j)) ∧
    (∀ k : Nat, k < tam →
      (∀ j : Nat, j < k → ∃ v, mem_le mem (ender + (j : Int)) = some v ∧ 1 ≤ v ∧ v ≤ 255) →
      (mem_le mem (ender + (k : Int)) = none ∨
        ∃ v, mem_le mem (ender + (k : Int)) = some v ∧ (v < 0 ∨ 255 < v)) →
      (copia_str_da_mem com_sinal tam str mem ender).1 = false) ∧
    ((∀ j : Nat, j < tam → mem_le mem (ender + (j : Int)) ≠ some 0) →
      (copia_str_da_mem com_sinal tam str mem ender).1 = false) := by
  have hsound : (copia_str_da_mem com_sinal tam str mem ender).1 = true →
      ∃ k, k < tam ∧
        (∀ j : Nat, j < k → ∃ v, mem_le mem (ender + (j : Int)) = some v ∧ 1 ≤ v ∧ v ≤ 255) ∧
        mem_le mem (ender + (k : Int)) = some 0 ∧
        (∀ j : Nat, j ≤ k →
          ∃ v, mem_le mem (ender + (j : Int)) = some v ∧
            (copia_str_da_mem com_sinal tam str mem ender).2 j = char_de_int com_sinal v) ∧
        (∀ j : Nat, k < j → (copia_str_da_mem com_sinal tam str mem ender).2 j = str j) := by
    intro h
    obtain ⟨k, hk, hval, hnul, hcopia, hfora⟩ :=
      copia_str_da_mem_laco_true com_sinal mem ender tam 0 str h
    refine ⟨k, hk, ?_, ?_, ?_, ?_⟩
    · intro j hj; simpa using hval j hj
    · simpa using hnul
    · intro j hj; exact hcopia j (Nat.zero_le _) (by omega)
    · intro j hj; exact hfora j (Or.inr (by omega))
  have hsome : ∀ k : Nat, (∀ j : Nat, j < k → ∃ v, mem_le mem (ender + (j : Int)) = some v ∧ 1 ≤ v ∧ v ≤ 255) →
      mem_le mem (ender + (k : Int)) = some 0 →
      ∀ j : Nat, j ≤ k → (mem_le mem (ender + (j : Int))).isSome := by
    intro k hval hnul j hj
    rcases Nat.lt_or_eq_of_le hj with h | h
    · obtain ⟨v, hv, _⟩ := hval j h; simp [hv]
    · subst h; simp [hnul]
  have hiff : (copia_str_da_mem com_sinal tam str mem ender).1 = true ↔
      ∃ k, k < tam ∧
        (∀ j : Nat, j ≤ k → (mem_le mem (ender + (j : Int))).isSome) ∧
        (∀ j : Nat, j < k → ∃ v, mem_le mem (ender + (j : Int)) = some v ∧ 1 ≤ v ∧ v ≤ 255) ∧
        mem_le mem (ender + (k : Int)) = some 0 := by
    constructor
    · intro h
      obtain ⟨k, hk, hval, hnul, _, _⟩ := hsound h
      exact ⟨k, hk, hsome k hval hnul, hval, hnul⟩
    · rintro ⟨k, hk, _, hval, hnul⟩
      exact copia_str_da_mem_laco_completo com_sinal mem ender tam 0 str k hk
        (fun j hj => by simpa using hval j hj) (by simpa using hnul)
  refine ⟨hiff, ?_, ?_, ?_⟩
  · intro h
    obtain ⟨k, hk, hval, hnul, hcopia, hfora⟩ := hsound h
    refine ⟨k, hk, hsome k hval hnul, hval, hnul, ?_, ?_, ?_, hfora⟩
    · intro k1 h1
      by_contra hlt
      obtain ⟨v, hv, hv1, _⟩ := hval k1 (by omega)
      rw [h1] at hv
      cases hv
      omega
    · intro j hj
      obtain ⟨v, hv, hstr⟩ := hcopia j hj
      refine ⟨v, hv, hstr, ?_, ?_⟩
      · intro hcase
        rw [hstr, char_de_int_exato com_sinal v hcase]
      · intro hcase
        rw [hstr]
        unfold char_de_int
        rw [if_pos ⟨hcase.2, hcase.1⟩]
    · obtain ⟨v, hv, hstr⟩ := hcopia k (le_refl k)
      rw [hnul] at hv
      cases hv
      rw [hstr, char_de_int_exato com_sinal 0 (Or.inl (by omega))]
  · intro k hk hval hbad
    cases hres : (copia_str_da_mem com_sinal tam str mem ender).1 with
    | false => rfl
    | true =>
      exfalso
      obtain ⟨k0, _, hval0, hnul0, _, _⟩ := hsound hres
      rcases Nat.lt_trichotomy k0 k with hlt | heq | hgt
      · obtain ⟨v, hv, hv1, _⟩ := hval k0 hlt
        rw [hnul0] at hv
        cases hv
        omega
      · subst heq
        rcases hbad with hn | ⟨v, hv, hvr⟩
        · rw [hn] at hnul0; cases hnul0
        · rw [hv] at hnul0; cases hnul0; omega
      · obtain ⟨v, hv, hv1, hv2⟩ := hval0 k hgt
        rcases hbad with hn | ⟨w, hw, hwr⟩
        · rw [hn] at hv; cases hv
        · rw [hw] at hv; cases hv; omega
  · intro hno
    cases hres : (copia_str_da_mem com_sinal tam str mem ender).1 with
    | false => rfl
    | true =>
      exfalso
      obtain ⟨k0, hk0, _, hnul0, _, _⟩ := hsound hres
      exact hno k0 hk0 hnul0

/-- C9 (as stated) fails for a byte above 127 where `char` is signed: with the byte 200 at
address 20 and a NUL at address 21, the copy into a buffer of two characters returns `true`,
but `str[0]` holds -56, not the value 200 that was read. -/
theorem copia_str_da_mem_byte_alto :
    mem_le mem_byte_alto 20 = some 200 ∧
    mem_le mem_byte_alto 21 = some 0 ∧
    (copia_str_da_mem true 2 (fun _ => 0) mem_byte_alto 20).1 = true ∧
    (copia_str_da_mem true 2 (fun _ => 0) mem_byte_alto 20).2 0 = -56 ∧
    (copia_str_da_mem true 2 (fun _ => 0) mem_byte_alto 20).2 1 = 0 ∧
    some ((copia_str_da_mem true 2 (fun _ => 0) mem_byte_alto 20).2 0)
      ≠ mem_le mem_byte_alto 20 := by
  refine ⟨by rfl, by rfl, by rfl, by rfl, by rfl, ?_⟩
  have h1 : (copia_str_da_mem true 2 (fun _ => 0) mem_byte_alto 20).2 0 = -56 := by rfl
  have h2 : mem_le mem_byte_alto 20 = some 200 := by rfl
  rw [h1, h2]
  decide

/-! ## C10: unknown interrupts -/

/-- C10: for every interrupt code other than `IRQ_RESET`, `IRQ_ERR_CPU`, `IRQ_SISTEMA` and
`IRQ_RELOGIO`, and every kernel state, `so_trata_irq` returns `ERR_CPU_PARADA` and leaves the
state, hence every table entry and `num_processos`, as it was. -/
theorem so_trata_irq_desconhecida_fatal (k : externos) (self : so_t) (irq : Int)
    (h1 : irq ≠ k.IRQ_RESET) (h2 : irq ≠ k.IRQ_ERR_CPU) (h3 : irq ≠ k.IRQ_SISTEMA)
    (h4 : irq ≠ k.IRQ_RELOGIO) :
    ∃ s1 : so_t,
      so_trata_irq k self irq = exec.ok (k.ERR_CPU_PARADA, s1) ∧
      s1.tabela_de_processos = self.tabela_de_processos ∧
      s1.num_processos = self.num_processos ∧
      s1 = self := by
  refine ⟨self, ?_, rfl, rfl, rfl⟩
  unfold so_trata_irq
  rw [if_neg h1, if_neg h2, if_neg h3, if_neg h4]
  rfl

/-- Witness of C10: interrupt code 9 in the one-process state. -/
theorem so_trata_irq_desconhecida_fatal_witness :
    ∃ s1 : so_t,
      so_trata_irq externos_exemplo estado_um_processo 9
        = exec.ok (externos_exemplo.ERR_CPU_PARADA, s1) ∧
      s1.tabela_de_processos = estado_um_processo.tabela_de_processos ∧
      s1.num_processos = estado_um_processo.num_processos ∧
      s1 = estado_um_processo :=
  so_trata_irq_desconhecida_fatal externos_exemplo estado_um_processo 9
    (by decide) (by decide) (by decide) (by decide)

/-! ## The load loop -/

/-- A write to an accessible address succeeds and stores the value. -/
theorem mem_escreve_acessivel (mem : mem_t) (ender v : Int) (h : (mem ender).isSome = true) :
    mem_escreve mem ender v = (true, Function.update mem ender (some v)) := by
  unfold mem_escreve
  rw [if_pos h]

/-- A write to an inaccessible address fails and leaves the memory as it was. -/
theorem mem_escreve_inacessivel (mem : mem_t) (ender v : Int) (h : mem ender = none) :
    mem_escreve mem ender v = (false, mem) := by
  unfold mem_escreve
  simp [h]

/-- The load loop never touches an address outside the `n` addresses from `ender` on. -/
theorem so_carrega_programa_laco_fora (prog : programa_t) :
    ∀ (n : Nat) (ender : Int) (mem : mem_t) (e : Int),
      (e < ender ∨ ender + (n : Int) ≤ e) →
      (so_carrega_programa_laco prog n ender mem).2 e = mem e := by
  intro n
  induction n with
  | zero => intro ender mem e _; rfl
  | succ n ih =>
    intro ender mem e he
    cases hm : mem ender with
    | none =>
      simp only [so_carrega_programa_laco, mem_escreve_inacessivel mem ender _ hm]
    | some v =>
      have h0 : (mem ender).isSome = true := by rw [hm]; rfl
      simp only [so_carrega_programa_laco, mem_escreve_acessivel mem ender _ h0]
      rw [ih (ender + 1) _ e (by omega)]
      exact Function.update_noteq (by omega) _ _

/-- `so_carrega_programa` for a program the loader knows. -/
theorem so_carrega_programa_conhecido (k : externos) (self : so_t) (nome : List Int)
    (prog : programa_t) (h : k.prog_cria nome = some prog) :
    so_carrega_programa k self nome =
      match so_carrega_programa_laco prog prog.tamanho.toNat prog.end_carga self.mem with
      | (true, mem1) => (prog.end_carga, { self with mem := mem1 })
      | (false, mem1) => (-1, { self with mem := mem1 }) := by
  unfold so_carrega_programa
  rw [h]
  simp only [add_sub_cancel_left]

/-- The loader glue leaves every address outside the program's range as it was. -/
theorem so_carrega_programa_fora (k : externos) (self : so_t) (nome : List Int)
    (prog : programa_t) (h : k.prog_cria nome = some prog) (e : Int)
    (he : e < prog.end_carga ∨ prog.end_carga + prog.tamanho ≤ e) :
    (so_carrega_programa k self nome).2.mem e = self.mem e := by
  have hf := so_carrega_programa_laco_fora prog prog.tamanho.toNat prog.end_carga self.mem e
    (by omega)
  rw [so_carrega_programa_conhecido k self nome prog h]
  rcases hl : so_carrega_programa_laco prog prog.tamanho.toNat prog.end_carga self.mem
    with ⟨b, m⟩
  rw [hl] at hf
  cases b <;> exact hf

/-! ## C11, C12: the create-process call with one slot left, and with none -/

/-- What a create-process call does when every step succeeds and `processo_especial` is the
current record: with at least two slots left, the counter grows by two, the new process
(pid old `num_processos`, READY, `pc` the load address) is stored one slot above old
`num_processos`, every other slot is as before and the caller's accumulator holds the new
pid. -/
theorem so_chamada_cria_proc_sucesso (k : externos) (self : so_t) (nome : Nat → Int)
    (hesp : self.processo_atual = ref_processo.especial)
    (herro : (atual self).erro = k.ERR_OK)
    (hcopia : copia_str_da_mem k.char_com_sinal 100 (fun _ => 0) self.mem (atual self).x
      = (true, nome))
    (hcarga : 0 < (so_carrega_programa k self (c_str 100 nome)).1)
    (hlivre : self.num_processos + 1 < PROCESSOS_MAX) :
    (so_chamada_cria_proc k self).num_processos = self.num_processos + 2 ∧
    (so_chamada_cria_proc k self).tabela_de_processos (self.num_processos + 1) =
      { pid := (self.num_processos : Int), estado := estado_t.PRONTO,
        pc := (so_carrega_programa k self (c_str 100 nome)).1, a := 0, x := 0,
        erro := k.ERR_OK } ∧
    (∀ j, j ≠ self.num_processos + 1 →
      (so_chamada_cria_proc k self).tabela_de_processos j = self.tabela_de_processos j) ∧
    (atual (so_chamada_cria_proc k self)).a = (self.num_processos : Int) := by
  obtain ⟨m, hm⟩ := so_carrega_programa_so_mem k self (c_str 100 nome)
  rcases hp : so_carrega_programa k self (c_str 100 nome) with ⟨ender, s1⟩
  rw [hp] at hm hcarga
  simp only at hm hcarga
  subst hm
  have hres : so_chamada_cria_proc k self =
      altera_atual
        { self with
          mem := m
          num_processos := self.num_processos + 2
          tabela_de_processos := Function.update self.tabela_de_processos
            (self.num_processos + 1)
            { pid := (self.num_processos : Int), estado := estado_t.PRONTO, pc := ender,
              a := 0, x := 0, erro := k.ERR_OK } }
        (fun p => { p with a := (self.num_processos : Int) }) := by
    unfold so_chamada_cria_proc
    rw [if_pos herro, hcopia]
    simp only [hp]
    rw [if_pos hcarga]
    simp [so_cria_processo, hlivre]
  rw [hres]
  refine ⟨?_, ?_, ?_, ?_⟩
  · rw [altera_atual_num]
  · simp [altera_atual, hesp]
  · intro j hj
    simp [altera_atual, hesp, Function.update_noteq hj]
  · rw [atual_altera_atual]

/-- C11 (evaluation at the failing input): the caller's `erro` is `ERR_OK`, the name copies,
the program loads at address 200 and slot 99 of the table is free (`num_processos = 99`),
yet `so_chamada_cria_proc` creates nothing: the table is left as it was (no entry has
`pc = 200`), the caller's accumulator keeps its value 0 instead of receiving a pid,
`num_processos` becomes 100 and -1 is written at address 0. -/
theorem so_chamada_cria_proc_ultimo_slot :
    (atual estado_ultimo_slot_livre).erro = externos_exemplo.ERR_OK ∧
    (copia_str_da_mem externos_exemplo.char_com_sinal 100 (fun _ => 0)
      estado_ultimo_slot_livre.mem
      (atual estado_ultimo_slot_livre).x).1 = true ∧
    (so_carrega_programa externos_exemplo estado_ultimo_slot_livre [112]).1 = 200 ∧
    estado_ultimo_slot_livre.num_processos < PROCESSOS_MAX ∧
    (so_chamada_cria_proc externos_exemplo estado_ultimo_slot_livre).tabela_de_processos
      = estado_ultimo_slot_livre.tabela_de_processos ∧
    (atual (so_chamada_cria_proc externos_exemplo estado_ultimo_slot_livre)).a = 0 ∧
    (so_chamada_cria_proc externos_exemplo estado_ultimo_slot_livre).num_processos = 100 ∧
    (so_chamada_cria_proc externos_exemplo estado_ultimo_slot_livre).mem 0 = some (-1) :=
  ⟨by decide, by decide, by rfl, by decide, rfl, by decide, by decide, by decide⟩

/-- C12 (evaluation at the failing input): a create-process call that fails because
`so_cria_processo` finds the table full.  With `num_processos = 100` the call returns
`ERR_OK`, writes -1 at the address held in the caller's accumulator (0) and leaves the slot
`IRQ_END_A` alone, but `num_processos` becomes 101: the table counts one process more.
With `num_processos = 99` the same failure leaves `num_processos = 100`, so that slot 99,
which no call ever created and which holds a stale READY descriptor, now counts as a
process of the table. -/
theorem so_trata_chamada_sistema_cria_proc_falha_conta :
    (∃ s1 : so_t,
      so_trata_chamada_sistema externos_exemplo estado_tabela_cheia
        = exec.ok (externos_exemplo.ERR_OK, s1) ∧
      s1.mem (atual estado_tabela_cheia).a = some (-1) ∧
      s1.mem externos_exemplo.IRQ_END_A = estado_tabela_cheia.mem externos_exemplo.IRQ_END_A ∧
      s1.tabela_de_processos = estado_tabela_cheia.tabela_de_processos ∧
      estado_tabela_cheia.num_processos = 100 ∧
      s1.num_processos = 101) ∧
    (∃ s1 : so_t,
      so_trata_chamada_sistema externos_exemplo estado_ultimo_slot_livre
        = exec.ok (externos_exemplo.ERR_OK, s1) ∧
      s1.mem (atual estado_ultimo_slot_livre).a = some (-1) ∧
      estado_ultimo_slot_livre.num_processos = 99 ∧
      s1.num_processos = 100 ∧
      (s1.tabela_de_processos 99).estado = estado_t.PRONTO) :=
  ⟨⟨_, rfl, by decide, by decide, rfl, by decide, by decide⟩,
   ⟨_, rfl, by decide, by decide, by decide, by decide⟩⟩

/-! ## C13: the kill-process call -/

/-- C13: in every kernel state in which the call number read from the accumulator slot is
`SO_MATA_PROC` (a case label distinct from the three before it in the `switch`),
`so_trata_chamada_sistema` returns `ERR_OK` after running `so_chamada_mata_proc`, which
writes -1 to the slot `IRQ_END_A` and changes nothing else: every other memory address, every
table entry (none is removed or STOPPED), `num_processos`, `processo_especial`, the current
reference, the console and the clock are as before. -/
theorem so_chamada_mata_proc_so_acumulador (k : externos) (self : so_t)
    (hid : mem_le self.mem k.IRQ_END_A = some k.SO_MATA_PROC)
    (h1 : k.SO_MATA_PROC ≠ k.SO_LE) (h2 : k.SO_MATA_PROC ≠ k.SO_ESCR)
    (h3 : k.SO_MATA_PROC ≠ k.SO_CRIA_PROC) :
    ∃ s1 : so_t,
      so_trata_chamada_sistema k self = exec.ok (k.ERR_OK, s1) ∧
      s1 = so_chamada_mata_proc k self ∧
      s1.mem k.IRQ_END_A = some (-1) ∧
      (∀ e : Int, e ≠ k.IRQ_END_A → s1.mem e = self.mem e) ∧
      s1.tabela_de_processos = self.tabela_de_processos ∧
      s1.num_processos = self.num_processos ∧
      s1.processo_especial = self.processo_especial ∧
      s1.processo_atual = self.processo_atual ∧
      s1.console = self.console ∧
      s1.relogio = self.relogio := by
  have hsome : (self.mem k.IRQ_END_A).isSome = true := by
    have : self.mem k.IRQ_END_A = some k.SO_MATA_PROC := hid
    rw [this]; rfl
  have hmem : (so_chamada_mata_proc k self).mem
      = Function.update self.mem k.IRQ_END_A (some (-1)) := by
    simp [so_chamada_mata_proc, mem_escreve, hsome]
  refine ⟨so_chamada_mata_proc k self, ?_, rfl, ?_, ?_, rfl, rfl, rfl, rfl, rfl, rfl⟩
  · unfold so_trata_chamada_sistema
    rw [hid]
    simp only [if_neg h1, if_neg h2, if_neg h3, if_true]
  · rw [hmem]; simp
  · intro e he
    rw [hmem, Function.update_noteq he]

/-- Witness of C13: the one-process state at a kill-process call. -/
theorem so_chamada_mata_proc_so_acumulador_witness :
    ∃ s1 : so_t,
      so_trata_chamada_sistema externos_exemplo (estado_chamada 8)
        = exec.ok (externos_exemplo.ERR_OK, s1) ∧
      s1 = so_chamada_mata_proc externos_exemplo (estado_chamada 8) ∧
      s1.mem externos_exemplo.IRQ_END_A = some (-1) ∧
      (∀ e : Int, e ≠ externos_exemplo.IRQ_END_A → s1.mem e = (estado_chamada 8).mem e) ∧
      s1.tabela_de_processos = (estado_chamada 8).tabela_de_processos ∧
      s1.num_processos = (estado_chamada 8).num_processos ∧
      s1.processo_especial = (estado_chamada 8).processo_especial ∧
      s1.processo_atual = (estado_chamada 8).processo_atual ∧
      s1.console = (estado_chamada 8).console ∧
      s1.relogio = (estado_chamada 8).relogio :=
  so_chamada_mata_proc_so_acumulador externos_exemplo (estado_chamada 8) (by rfl)
    (by decide) (by decide) (by decide)

/-! ## C14: the reset handler when the load address is wrong -/

/-- C14 (as amended): in every kernel state in which the load of `init.maq` reports an
address other than 100 (the failure value -1 included), `so_trata_irq_reset` returns
`ERR_CPU_PARADA` and hands back the state exactly as `so_carrega_programa` left it: no
process is created, the process table (entries, states, `num_processos`), the record
`processo_especial` and the current reference are unchanged, and the memory is changed by
the program load only.  So every address outside the program's load range, and every address
at all when the program cannot be created, holds what it held; in particular the slots
`IRQ_END_PC` and `IRQ_END_modo` are unchanged whenever they lie outside that range. -/
theorem so_trata_irq_reset_carga_errada (k : externos) (self : so_t)
    (hne : (so_carrega_programa k self nome_init).1 ≠ 100) :
    ∃ s1 : so_t,
      so_trata_irq_reset k self = exec.ok (k.ERR_CPU_PARADA, s1) ∧
      s1 = (so_carrega_programa k self nome_init).2 ∧
      s1.tabela_de_processos = self.tabela_de_processos ∧
      s1.num_processos = self.num_processos ∧
      s1.processo_especial = self.processo_especial ∧
      s1.processo_atual = self.processo_atual ∧
      (k.prog_cria nome_init = none → s1.mem = self.mem) ∧
      (∀ prog : programa_t, k.prog_cria nome_init = some prog →
        ∀ e : Int, (e < prog.end_carga ∨ prog.end_carga + prog.tamanho ≤ e) →
          s1.mem e = self.mem e) ∧
      (∀ prog : programa_t, k.prog_cria nome_init = some prog →
        (k.IRQ_END_PC < prog.end_carga ∨ prog.end_carga + prog.tamanho ≤ k.IRQ_END_PC) →
        (k.IRQ_END_modo < prog.end_carga ∨ prog.end_carga + prog.tamanho ≤ k.IRQ_END_modo) →
        s1.mem k.IRQ_END_PC = self.mem k.IRQ_END_PC ∧
        s1.mem k.IRQ_END_modo = self.mem k.IRQ_END_modo) := by
  obtain ⟨m, hm⟩ := so_carrega_programa_so_mem k self nome_init
  refine ⟨(so_carrega_programa k self nome_init).2, ?_, rfl, ?_, ?_, ?_, ?_, ?_, ?_, ?_⟩
  · unfold so_trata_irq_reset
    rcases hp : so_carrega_programa k self nome_init with ⟨ender, s1⟩
    rw [hp] at hne
    simp only [ne_eq]
    rw [if_pos hne]
  · rw [hm]
  · rw [hm]
  · rw [hm]
  · rw [hm]
  · intro hnone
    unfold so_carrega_programa
    rw [hnone]
  · intro prog hprog e he
    exact so_carrega_programa_fora k self nome_init prog hprog e he
  · intro prog hprog h1 h2
    exact ⟨so_carrega_programa_fora k self nome_init prog hprog _ h1,
      so_carrega_programa_fora k self nome_init prog hprog _ h2⟩

/-- Witness of C14 (as amended): a reset in the one-process state with a loader that does not
find `init.maq`. -/
theorem so_trata_irq_reset_carga_errada_witness :
    ∃ s1 : so_t,
      so_trata_irq_reset externos_sem_programas estado_um_processo
        = exec.ok (externos_sem_programas.ERR_CPU_PARADA, s1) ∧
      s1 = (so_carrega_programa externos_sem_programas estado_um_processo nome_init).2 ∧
      s1.tabela_de_processos = estado_um_processo.tabela_de_processos ∧
      s1.num_processos = estado_um_processo.num_processos ∧
      s1.processo_especial = estado_um_processo.processo_especial ∧
      s1.processo_atual = estado_um_processo.processo_atual ∧
      (externos_sem_programas.prog_cria nome_init = none → s1.mem = estado_um_processo.mem) ∧
      (∀ prog : programa_t, externos_sem_programas.prog_cria nome_init = some prog →
        ∀ e : Int, (e < prog.end_carga ∨ prog.end_carga + prog.tamanho ≤ e) →
          s1.mem e = estado_um_processo.mem e) ∧
      (∀ prog : programa_t, externos_sem_programas.prog_cria nome_init = some prog →
        (externos_sem_programas.IRQ_END_PC < prog.end_carga ∨
          prog.end_carga + prog.tamanho ≤ externos_sem_programas.IRQ_END_PC) →
        (externos_sem_programas.IRQ_END_modo < prog.end_carga ∨
          prog.end_carga + prog.tamanho ≤ externos_sem_programas.IRQ_END_modo) →
        s1.mem externos_sem_programas.IRQ_END_PC
          = estado_um_processo.mem externos_sem_programas.IRQ_END_PC ∧
        s1.mem externos_sem_programas.IRQ_END_modo
          = estado_um_processo.mem externos_sem_programas.IRQ_END_modo) :=
  so_trata_irq_reset_carga_errada externos_sem_programas estado_um_processo (by decide)

/-- C14 (as stated) fails when the program's load range covers the register slots: with an
`init.maq` of one word (42) placed at address 0, the load reports address 0, not 100, the
handler returns `ERR_CPU_PARADA` and leaves table and counter alone, but the slot
`IRQ_END_PC` (address 0), which held 0, holds 42 when the handler returns. -/
theorem so_trata_irq_reset_carga_sobre_pc :
    (so_carrega_programa externos_carga_baixa estado_um_processo nome_init).1 = 0 ∧
    estado_um_processo.mem externos_carga_baixa.IRQ_END_PC = some 0 ∧
    ∃ s1 : so_t,
      so_trata_irq_reset externos_carga_baixa estado_um_processo
        = exec.ok (externos_carga_baixa.ERR_CPU_PARADA, s1) ∧
      s1.num_processos = estado_um_processo.num_processos ∧
      s1.mem externos_carga_baixa.IRQ_END_PC = some 42 :=
  ⟨by rfl, by decide, _, rfl, by decide, by decide⟩

/-! ## C15: the status of the system-call dispatch -/

/-- C15: let `id` be the call number read from the accumulator slot, `ERR_OK` and
`ERR_CPU_PARADA` being distinct codes.  Whenever `so_trata_chamada_sistema` returns (the
busy-wait of a READ or WRITE ends and the call uses no undetermined value), its status is
`ERR_CPU_PARADA` if and only if `id` is none of `SO_LE`, `SO_ESCR`, `SO_CRIA_PROC`,
`SO_MATA_PROC`.  For such an unknown `id` it does return, with `ERR_CPU_PARADA` and the whole
state (process table and memory included) as it was; for a create-process or kill-process
call it returns `ERR_OK`; for a READ whose busy-wait ends and whose datum is delivered, and
for a WRITE whose busy-wait ends with the slot `IRQ_END_X` readable, it returns `ERR_OK`. -/
theorem so_trata_chamada_sistema_fatal_sse_desconhecida (k : externos) (self : so_t) (id : Int)
    (hid : mem_le self.mem k.IRQ_END_A = some id)
    (herr : k.ERR_OK ≠ k.ERR_CPU_PARADA) :
    (∀ (err : Int) (s1 : so_t), so_trata_chamada_sistema k self = exec.ok (err, s1) →
      (err = k.ERR_CPU_PARADA ↔
        (id ≠ k.SO_LE ∧ id ≠ k.SO_ESCR ∧ id ≠ k.SO_CRIA_PROC ∧ id ≠ k.SO_MATA_PROC))) ∧
    ((id ≠ k.SO_LE ∧ id ≠ k.SO_ESCR ∧ id ≠ k.SO_CRIA_PROC ∧ id ≠ k.SO_MATA_PROC) →
      so_trata_chamada_sistema k self = exec.ok (k.ERR_CPU_PARADA, self)) ∧
    (id ≠ k.SO_LE → id ≠ k.SO_ESCR → (id = k.SO_CRIA_PROC ∨ id = k.SO_MATA_PROC) →
      ∃ s1 : so_t, so_trata_chamada_sistema k self = exec.ok (k.ERR_OK, s1)) ∧
    (id = k.SO_LE →
      ∀ (console1 console2 : console_t) (dado : Int),
        espera_ocupada self.console (Int.tmod (atual self).pid TERMINAIS_MAX)
          = exec.ok console1 →
        term_le console1 (Int.tmod (atual self).pid TERMINAIS_MAX)
          = exec.ok (some dado, console2) →
        ∃ s1 : so_t, so_trata_chamada_sistema k self = exec.ok (k.ERR_OK, s1)) ∧
    (id ≠ k.SO_LE → id = k.SO_ESCR →
      ∀ (console1 : console_t) (dado : Int),
        espera_ocupada self.console (Int.tmod (atual self).pid TERMINAIS_MAX)
          = exec.ok console1 →
        mem_le self.mem k.IRQ_END_X = some dado →
        ∃ s1 : so_t, so_trata_chamada_sistema k self = exec.ok (k.ERR_OK, s1)) := by
  refine ⟨?_, ?_, ?_, ?_, ?_⟩
  · intro err s1 h
    unfold so_trata_chamada_sistema at h
    rw [hid] at h
    simp only at h
    by_cases c1 : id = k.SO_LE
    · rw [if_pos c1] at h
      have he : err = k.ERR_OK := by
        cases hl : so_chamada_le k self with
        | ok s => rw [hl] at h; cases h; rfl
        | indefinido => rw [hl] at h; cases h
        | esgotado => rw [hl] at h; cases h
      constructor
      · intro hp; exact absurd (he.symm.trans hp) herr
      · intro hn; exact absurd c1 hn.1
    · rw [if_neg c1] at h
      by_cases c2 : id = k.SO_ESCR
      · rw [if_pos c2] at h
        have he : err = k.ERR_OK := by
          cases hl : so_chamada_escr k self with
          | ok s => rw [hl] at h; cases h; rfl
          | indefinido => rw [hl] at h; cases h
          | esgotado => rw [hl] at h; cases h
        constructor
        · intro hp; exact absurd (he.symm.trans hp) herr
        · intro hn; exact absurd c2 hn.2.1
      · rw [if_neg c2] at h
        by_cases c3 : id = k.SO_CRIA_PROC
        · rw [if_pos c3] at h
          cases h
          constructor
          · intro hp; exact absurd hp herr
          · intro hn; exact absurd c3 hn.2.2.1
        · rw [if_neg c3] at h
          by_cases c4 : id = k.SO_MATA_PROC
          · rw [if_pos c4] at h
            cases h
            constructor
            · intro hp; exact absurd hp herr
            · intro hn; exact absurd c4 hn.2.2.2
          · rw [if_neg c4] at h
            cases h
            exact ⟨fun _ => ⟨c1, c2, c3, c4⟩, fun _ => rfl⟩
  · rintro ⟨c1, c2, c3, c4⟩
    unfold so_trata_chamada_sistema
    rw [hid]
    simp only [if_neg c1, if_neg c2, if_neg c3, if_neg c4]
  · intro c1 c2 hc
    unfold so_trata_chamada_sistema
    rw [hid]
    simp only [if_neg c1, if_neg c2]
    by_cases c3 : id = k.SO_CRIA_PROC
    · exact ⟨_, by rw [if_pos c3]⟩
    · rcases hc with hc | hc
      · exact absurd hc c3
      · exact ⟨_, by rw [if_neg c3, if_pos hc]⟩
  · intro c1 console1 console2 dado hesp hle
    refine ⟨{ self with console := console2,
                        mem := (mem_escreve self.mem k.IRQ_END_A dado).2 }, ?_⟩
    unfold so_trata_chamada_sistema
    rw [hid]
    simp only [if_pos c1, so_chamada_le, hesp, hle]
  · intro c1 c2 console1 dado hesp hx
    refine ⟨{ self with
        console := term_escr console1 (Int.tmod (atual self).pid TERMINAIS_MAX) dado,
        mem := (mem_escreve self.mem k.IRQ_END_A 0).2 }, ?_⟩
    unfold so_trata_chamada_sistema
    rw [hid]
    simp only [if_neg c1, if_pos c2, so_chamada_escr, hesp, hx]

/-- Witness of C15: a READ call in the one-process state, whose terminal becomes ready at the
second poll; the call returns `ERR_OK` with the datum 65 in the accumulator slot. -/
theorem so_trata_chamada_sistema_fatal_sse_desconhecida_witness :
    (∃ s1 : so_t,
      so_trata_chamada_sistema externos_exemplo (estado_chamada 1)
        = exec.ok (externos_exemplo.ERR_OK, s1) ∧
      s1.mem externos_exemplo.IRQ_END_A = some 65) ∧
    (∀ (err : Int) (s1 : so_t),
      so_trata_chamada_sistema externos_exemplo (estado_chamada 1) = exec.ok (err, s1) →
      (err = externos_exemplo.ERR_CPU_PARADA ↔
        ((1 : Int) ≠ externos_exemplo.SO_LE ∧ (1 : Int) ≠ externos_exemplo.SO_ESCR ∧
          (1 : Int) ≠ externos_exemplo.SO_CRIA_PROC ∧
          (1 : Int) ≠ externos_exemplo.SO_MATA_PROC))) :=
  ⟨⟨_, rfl, by decide⟩,
   (so_trata_chamada_sistema_fatal_sse_desconhecida externos_exemplo (estado_chamada 1) 1
      (by rfl) (by decide)).1⟩

/-! ## C16, C17: repeated scheduling, termination of the search -/

/-- With `1 ≤ num_processos ≤ PROCESSOS_MAX`, a current pid in `0 .. INT_MAX-1` and a READY
slot below `num_processos`, the scheduler's search ends at a READY slot `i`,
`d < num_processos` steps from its start, as soon as it has `d + 1` units of fuel. -/
theorem so_escalona_ok (self : so_t)
    (hnum : 1 ≤ self.num_processos) (hmax : self.num_processos ≤ PROCESSOS_MAX)
    (hpid : 0 ≤ (atual self).pid) (hpidmax : (atual self).pid < INT_MAX)
    (hpronto : ∃ j, j < self.num_processos ∧
      (self.tabela_de_processos j).estado = estado_t.PRONTO) :
    ∃ i d : Nat, i < self.num_processos ∧ d < self.num_processos ∧
      (self.tabela_de_processos i).estado = estado_t.PRONTO ∧
      ∀ comb : Nat, d < comb →
        so_escalona_laco self.tabela_de_processos self.num_processos comb
          (Int.tmod (soma_int (atual self).pid 1) self.num_processos) = exec.ok (i : Int) ∧
        so_escalona comb self
          = exec.ok (altera_atual self (fun p => { p with pid := (i : Int) })) := by
  obtain ⟨q, hq⟩ : ∃ q : Nat, (atual self).pid = (q : Int) :=
    ⟨(atual self).pid.toNat, (Int.toNat_of_nonneg hpid).symm⟩
  have hqmax : (q : Int) < INT_MAX := by rw [← hq]; exact hpidmax
  have hpos : 0 < self.num_processos := hnum
  have hp : (q + 1) % self.num_processos < self.num_processos := Nat.mod_lt _ hpos
  obtain ⟨d, hd, hdp, hdmin⟩ :=
    primeiro_pronto_existe self.tabela_de_processos self.num_processos _ hp hpronto
  refine ⟨((q + 1) % self.num_processos + d) % self.num_processos, d, Nat.mod_lt _ hpos, hd,
    hdp, ?_⟩
  intro comb hcomb
  have hlaco := so_escalona_laco_acha self.tabela_de_processos self.num_processos hmax d
    ((q + 1) % self.num_processos) comb hp hcomb hdmin hdp
  have hstart : Int.tmod (soma_int (atual self).pid 1) self.num_processos
      = (((q + 1) % self.num_processos : Nat) : Int) := by
    rw [hq, tmod_soma_int_cast q _ hqmax]
  refine ⟨by rw [hstart, hlaco], ?_⟩
  unfold so_escalona
  rw [if_neg (by omega), hstart, hlaco]

/-- C16: for every table of size `N = num_processos ≥ 1` (at most `PROCESSOS_MAX`, the
number of slots a table has) with exactly one READY entry, at slot `r`, among the slots
`0 .. N-1`, and every current pid in `0 .. N-1`, `so_escalona` (given fuel for `N` probes)
sets the current pid to `r`; and after any number `n + 1` of calls in a row the current pid
is `r`, the size of the table and the state of every entry being as at the start. -/
theorem so_escalona_vezes_unico_pronto (comb : Nat) (self : so_t) (r : Nat)
    (hr : r < self.num_processos) (hmax : self.num_processos ≤ PROCESSOS_MAX)
    (hready : (self.tabela_de_processos r).estado = estado_t.PRONTO)
    (hunico : ∀ j, j < self.num_processos →
      (self.tabela_de_processos j).estado = estado_t.PRONTO → j = r)
    (hpid : 0 ≤ (atual self).pid) (hpidN : (atual self).pid < self.num_processos)
    (hcomb : self.num_processos ≤ comb) :
    so_escalona comb self
      = exec.ok (altera_atual self (fun p => { p with pid := (r : Int) })) ∧
    ∀ n : Nat, ∃ s1 : so_t,
      so_escalona_vezes comb (n + 1) self = exec.ok s1 ∧
      (atual s1).pid = (r : Int) ∧
      s1.num_processos = self.num_processos ∧
      ∀ j, (s1.tabela_de_processos j).estado = (self.tabela_de_processos j).estado := by
  have hN : self.num_processos ≤ 100 := hmax
  have passo : ∀ s : so_t, s.num_processos = self.num_processos →
      (∀ j, (s.tabela_de_processos j).estado = (self.tabela_de_processos j).estado) →
      0 ≤ (atual s).pid → (atual s).pid < self.num_processos →
      so_escalona comb s = exec.ok (altera_atual s (fun p => { p with pid := (r : Int) })) := by
    intro s hn he hp hpN
    have hpm : (atual s).pid < INT_MAX := by
      unfold INT_MAX
      omega
    obtain ⟨i, d, hi, hd, hip, hrun⟩ := so_escalona_ok s (by omega) (by omega) hp hpm
      ⟨r, by omega, by rw [he]; exact hready⟩
    have hir : i = r := hunico i (by omega) (by rw [← he]; exact hip)
    subst hir
    exact (hrun comb (by omega)).2
  refine ⟨passo self rfl (fun _ => rfl) hpid hpidN, ?_⟩
  intro n
  have geral : ∀ (n : Nat) (s : so_t), s.num_processos = self.num_processos →
      (∀ j, (s.tabela_de_processos j).estado = (self.tabela_de_processos j).estado) →
      0 ≤ (atual s).pid → (atual s).pid < self.num_processos →
      ∃ s1 : so_t,
        so_escalona_vezes comb (n + 1) s = exec.ok s1 ∧
        (atual s1).pid = (r : Int) ∧
        s1.num_processos = self.num_processos ∧
        ∀ j, (s1.tabela_de_processos j).estado = (self.tabela_de_processos j).estado := by
    intro n
    induction n with
    | zero =>
      intro s hn he hp hpN
      refine ⟨altera_atual s (fun p => { p with pid := (r : Int) }), ?_, ?_, ?_, ?_⟩
      · simp only [so_escalona_vezes, passo s hn he hp hpN]
      · rw [atual_altera_atual]
      · rw [altera_atual_num, hn]
      · intro j; rw [altera_atual_pid_estado, he]
    | succ n ih =>
      intro s hn he hp hpN
      obtain ⟨s1, h1, h2, h3, h4⟩ := ih (altera_atual s (fun p => { p with pid := (r : Int) }))
        (by rw [altera_atual_num, hn])
        (fun j => by rw [altera_atual_pid_estado, he])
        (by rw [atual_altera_atual]; exact Int.ofNat_nonneg r)
        (by rw [atual_altera_atual]; exact Int.ofNat_lt.mpr hr)
      refine ⟨s1, ?_, h2, h3, h4⟩
      rw [so_escalona_vezes, passo s hn he hp hpN]
      exact h1
  exact geral n self rfl (fun _ => rfl) hpid hpidN

/-- Witness of C16: three processes, slot 2 the only READY one, current pid 0. -/
theorem so_escalona_vezes_unico_pronto_witness :
    so_escalona 3 estado_tres_processos
      = exec.ok (altera_atual estado_tres_processos (fun p => { p with pid := ((2 : Nat) : Int) })) ∧
    ∀ n : Nat, ∃ s1 : so_t,
      so_escalona_vezes 3 (n + 1) estado_tres_processos = exec.ok s1 ∧
      (atual s1).pid = ((2 : Nat) : Int) ∧
      s1.num_processos = estado_tres_processos.num_processos ∧
      ∀ j, (s1.tabela_de_processos j).estado
        = (estado_tres_processos.tabela_de_processos j).estado :=
  so_escalona_vezes_unico_pronto 3 estado_tres_processos 2 (by decide) (by decide) (by decide)
    (by
      intro j hj h
      have h3 : j < 3 := hj
      rcases j with _ | _ | _ | j
      · exact absurd h (by decide)
      · exact absurd h (by decide)
      · rfl
      · omega)
    (by decide) (by decide) (by decide)

/-- C18 (evaluation at the failing input): a successful create-process call with
`num_processos = 1`.  The counter becomes 3, not 2; the new process {pid 1, READY, pc 200}
is stored in slot 2, not in slot 1, so its pid is not its slot index; slot 1 is left as it
was, unwritten, below `num_processos`.  The caller's accumulator receives the pid 1. -/
theorem so_trata_chamada_sistema_cria_proc_dois_slots :
    estado_cria_proc.num_processos = 1 ∧
    ∃ s1 : so_t,
      so_trata_chamada_sistema externos_exemplo estado_cria_proc
        = exec.ok (externos_exemplo.ERR_OK, s1) ∧
      s1.num_processos = 3 ∧
      s1.tabela_de_processos 2 = processo_exemplo 1 estado_t.PRONTO 200 ∧
      s1.tabela_de_processos 1 = estado_cria_proc.tabela_de_processos 1 ∧
      s1.tabela_de_processos 1 = processo_exemplo 77 estado_t.PARADO 0 ∧
      (atual s1).a = 1 :=
  ⟨rfl, _, rfl, by decide, by decide, by decide, by decide, by decide⟩

/-! ## C19: the program loader glue -/

/-- C20 (evaluation at the failing input): in the state built by `so_cria`, where
`num_processos = 0`, a first interrupt that is an unknown IRQ (code 9), a clock tick, or a
reset whose program load fails is handled by `so_trata_irq` and leaves `num_processos = 0`;
`so_escalona` then computes `(pid + 1) % 0`, so the whole of `so_trata_interrupcao` has no
defined result. -/
theorem so_trata_interrupcao_divide_por_zero :
    estado_inicial.num_processos = 0 ∧
    (∃ s2 : so_t,
      so_trata_irq externos_exemplo estado_inicial 9
        = exec.ok (externos_exemplo.ERR_CPU_PARADA, s2) ∧
      s2.num_processos = 0 ∧
      (∀ comb : Nat, so_escalona comb s2 = exec.indefinido) ∧
      ∀ comb : Nat,
        so_trata_interrupcao externos_exemplo comb estado_inicial 9 = exec.indefinido) ∧
    (∀ comb : Nat,
      so_trata_interrupcao externos_exemplo comb estado_inicial externos_exemplo.IRQ_RELOGIO
        = exec.indefinido) ∧
    (so_carrega_programa externos_sem_programas estado_inicial nome_init).1 = -1 ∧
    (∃ s2 : so_t,
      so_trata_irq externos_sem_programas estado_inicial externos_sem_programas.IRQ_RESET
        = exec.ok (externos_sem_programas.ERR_CPU_PARADA, s2) ∧
      s2.num_processos = 0) ∧
    (∀ comb : Nat,
      so_trata_interrupcao externos_sem_programas comb estado_inicial
        externos_sem_programas.IRQ_RESET = exec.indefinido) :=
  ⟨rfl, ⟨_, rfl, rfl, fun _ => rfl, fun _ => rfl⟩, fun _ => rfl, by rfl,
    ⟨_, rfl, rfl⟩, fun _ => rfl⟩

end SO
